import Mathlib

/-!
Verification of the matrix-bridge-feishu event pipeline.

This file gives a shallow embedding, in Lean 4, of the parts of the
palpo-im/matrix-bridge-feishu repository that its specification makes claims
about: the outbound content hash and delivery UUID helpers
(`src/bridge/matrix_event_parser.rs`), the Matrix event processor
(`src/bridge/event_processor.rs`), the message-flow translator
(`src/bridge/message_flow.rs`), the Feishu-side bridge handlers and
dead-letter replay (`src/bridge/feishu_bridge.rs`), the SQLite-backed stores
with their LRU fronts (`src/database/sqlite_stores.rs`), and the webhook
front end with its signature checks (`src/feishu/service.rs`,
`src/feishu/client.rs`).

Modelling conventions:
* Rust `i64` row ids are modelled as `Nat`; timestamps are opaque `String`s
  supplied by an environment record (Rust uses `Utc::now().to_rfc3339()`).
* Database access is modelled as pure state passing over lists of rows; a
  `.first()` query without an ORDER BY is modelled as `List.find?` in
  insertion order, and `id DESC` as the reverse of insertion order.
* Network effects (Feishu API calls, Matrix intent calls, media transfers)
  are modelled as emitted `Action`s, with their results supplied by an
  environment record; fallible calls yield `Except String` results.
* The formatter crate (HTML / markdown / rich-text converters), which the
  specification declares out of scope, is modelled as an abstract
  `FormatterOracle` record of `String → String` functions.
* SHA-256 is implemented concretely over byte lists, with 32-bit words as
  `Nat` reduced modulo `2 ^ 32`.
-/

namespace MatrixBridgeFeishu

/-! ## String helpers mirroring the Rust standard library -/

/-- ASCII lowercase of a single character; `eq_ignore_ascii_case` in Rust
only folds the ASCII range `A`-`Z`. -/
def asciiLowerChar (c : Char) : Char :=
  if 'A' ≤ c ∧ c ≤ 'Z' then Char.ofNat (c.toNat + 32) else c

/-- ASCII-lowercase every character of a string. -/
def asciiLower (s : String) : String :=
  String.mk (s.data.map asciiLowerChar)

/-- Rust `str::eq_ignore_ascii_case`. -/
def eqIgnoreAsciiCase (a b : String) : Bool :=
  asciiLower a == asciiLower b

/-- Dropping leading whitespace from a character list. -/
def trimLeftList : List Char → List Char
  | [] => []
  | c :: rest => if c.isWhitespace then trimLeftList rest else c :: rest

/-- Rust `str::trim`, implemented over the character list so that it
computes by kernel reduction. -/
def strTrim (s : String) : String :=
  String.mk ((trimLeftList ((trimLeftList s.data).reverse)).reverse)

/-- Rust `str::starts_with` for string patterns. -/
def strStartsWith (s pat : String) : Bool :=
  pat.data.isPrefixOf s.data

/-- First `n` characters of a string. -/
def strTake (s : String) (n : Nat) : String :=
  String.mk (s.data.take n)

/-- The worker for `splitWhitespace`, carrying the current word reversed. -/
def splitWhitespaceGo : List Char → List Char → List String
  | [], acc => if acc.isEmpty then [] else [String.mk acc.reverse]
  | c :: rest, acc =>
    if c.isWhitespace then
      if acc.isEmpty then splitWhitespaceGo rest []
      else String.mk acc.reverse :: splitWhitespaceGo rest []
    else splitWhitespaceGo rest (c :: acc)

/-- Rust `split_whitespace`: split on whitespace, dropping empty pieces. -/
def splitWhitespace (s : String) : List String :=
  splitWhitespaceGo s.data []

/-! ## SHA-256 over byte lists

Faithful implementation of FIPS 180-4 SHA-256, used by
`outbound_content_hash`, `outbound_delivery_uuid` and the webhook signature
check.  Words are `Nat`s kept below `2 ^ 32`. -/

namespace Sha256

/-- The 32-bit modulus. -/
def M32 : Nat := 2 ^ 32

/-- Addition modulo `2 ^ 32`. -/
def add32 (a b : Nat) : Nat := (a + b) % M32

/-- Right rotation of a 32-bit word. -/
def rotr (n x : Nat) : Nat := ((x >>> n) ||| (x <<< (32 - n))) % M32

/-- Logical right shift. -/
def shr (n x : Nat) : Nat := x >>> n

/-- Bitwise complement within 32 bits. -/
def not32 (x : Nat) : Nat := x ^^^ (M32 - 1)

def bigSigma0 (x : Nat) : Nat := (rotr 2 x) ^^^ (rotr 13 x) ^^^ (rotr 22 x)
def bigSigma1 (x : Nat) : Nat := (rotr 6 x) ^^^ (rotr 11 x) ^^^ (rotr 25 x)
def smallSigma0 (x : Nat) : Nat := (rotr 7 x) ^^^ (rotr 18 x) ^^^ (shr 3 x)
def smallSigma1 (x : Nat) : Nat := (rotr 17 x) ^^^ (rotr 19 x) ^^^ (shr 10 x)

def ch (x y z : Nat) : Nat := (x &&& y) ^^^ ((not32 x) &&& z)
def maj (x y z : Nat) : Nat := (x &&& y) ^^^ (x &&& z) ^^^ (y &&& z)

/-- The 64 round constants (FIPS 180-4, in decimal). -/
def K : List Nat :=
  [1116352408, 1899447441, 3049323471, 3921009573, 961987163, 1508970993,
   2453635748, 2870763221, 3624381080, 310598401, 607225278, 1426881987,
   1925078388, 2162078206, 2614888103, 3248222580, 3835390401, 4022224774,
   264347078, 604807628, 770255983, 1249150122, 1555081692, 1996064986,
   2554220882, 2821834349, 2952996808, 3210313671, 3336571891, 3584528711,
   113926993, 338241895, 666307205, 773529912, 1294757372, 1396182291,
   1695183700, 1986661051, 2177026350, 2456956037, 2730485921, 2820302411,
   3259730800, 3345764771, 3516065817, 3600352804, 4094571909, 275423344,
   430227734, 506948616, 659060556, 883997877, 958139571, 1322822218,
   1537002063, 1747873779, 1955562222, 2024104815, 2227730452, 2361852424,
   2428436474, 2756734187, 3204031479, 3329325298]

/-- The initial hash values (in decimal). -/
def H0 : List Nat :=
  [1779033703, 3144134277, 1013904242, 2773480762,
   1359893119, 2600822924, 528734635, 1541459225]

/-- Big-endian byte decomposition of a value into `n` bytes. -/
def bytesBE (n v : Nat) : List Nat :=
  (List.range n).reverse.map (fun i => (v >>> (8 * i)) % 256)

/-- Pad a byte message per FIPS 180-4: a `0x80` byte, zeros, then the
bit length as eight big-endian bytes, to a multiple of 64 bytes. -/
def pad (msg : List Nat) : List Nat :=
  let len := msg.length
  let zeros := (64 - ((len + 9) % 64)) % 64
  msg ++ [0x80] ++ List.replicate zeros 0 ++ bytesBE 8 (len * 8)

/-- Group bytes into big-endian 32-bit words. -/
def toWords : List Nat → List Nat
  | a :: b :: c :: d :: rest =>
      ((a <<< 24) + (b <<< 16) + (c <<< 8) + d) :: toWords rest
  | _ => []

/-- Group the word stream into 16-word blocks. -/
def toBlocks (ws : List Nat) : List (List Nat) :=
  match ws with
  | [] => []
  | w :: rest => ((w :: rest).take 16) :: toBlocks ((w :: rest).drop 16)
termination_by ws.length
decreasing_by simp [List.length_drop]; omega

/-- Extend a schedule by one word. -/
def scheduleStep (ws : List Nat) : List Nat :=
  ws ++ [add32
          (add32 (smallSigma1 (ws.getD (ws.length - 2) 0)) (ws.getD (ws.length - 7) 0))
          (add32 (smallSigma0 (ws.getD (ws.length - 15) 0)) (ws.getD (ws.length - 16) 0))]

/-- Expand 16 block words to the 64-word message schedule. -/
def fullSchedule (block : List Nat) : List Nat :=
  (List.range 48).foldl (fun ws _ => scheduleStep ws) block

/-- One compression round over the eight-word working state. -/
def round (st : List Nat) (kw : Nat × Nat) : List Nat :=
  match st with
  | [a, b, c, d, e, f, g, h] =>
    let t1 := add32 h (add32 (bigSigma1 e) (add32 (ch e f g) (add32 kw.1 kw.2)))
    let t2 := add32 (bigSigma0 a) (maj a b c)
    [add32 t1 t2, a, b, c, add32 d t1, e, f, g]
  | other => other

/-- Compress one 16-word block into the running hash. -/
def compressBlock (h : List Nat) (block : List Nat) : List Nat :=
  let ws := fullSchedule block
  let st := (K.zip ws).foldl round h
  (h.zip st).map (fun p => add32 p.1 p.2)

/-- SHA-256 digest of a byte list, as 32 bytes. -/
def sha256 (msg : List Nat) : List Nat :=
  let blocks := toBlocks (toWords (pad msg))
  let hs := blocks.foldl compressBlock H0
  (hs.map (bytesBE 4)).flatten

end Sha256

/-- Lowercase hexadecimal digit. -/
def hexDigit (n : Nat) : Char :=
  "0123456789abcdef".data.getD n '0'

/-- Two-character lowercase hexadecimal rendering of a byte. -/
def hexByte (b : Nat) : String :=
  String.mk [hexDigit (b / 16), hexDigit (b % 16)]

/-- Lowercase hexadecimal rendering of a byte list (`hex::encode`). -/
def hexEncode (bs : List Nat) : String :=
  String.join (bs.map hexByte)

/-- UTF-8 bytes of a string, as `Nat`s. -/
def strBytes (s : String) : List Nat :=
  s.toUTF8.toList.map (fun b => b.toNat)

/-! ## Data model (`src/database/models.rs`)

Row structures mirror the Rust models; `DateTime<Utc>` columns are opaque
strings here (the SQLite store serializes them to RFC 3339 strings). -/

structure RoomMapping where
  id : Nat
  matrix_room_id : String
  feishu_chat_id : String
  feishu_chat_name : Option String
  feishu_chat_type : String
  created_at : String
  updated_at : String
deriving Repr, DecidableEq

/-- Rust `RoomMapping::new`: id 0, chat type defaulted to `group`. -/
def RoomMapping.make (matrixRoomId feishuChatId : String)
    (feishuChatName : Option String) (now : String) : RoomMapping :=
  { id := 0, matrix_room_id := matrixRoomId, feishu_chat_id := feishuChatId,
    feishu_chat_name := feishuChatName, feishu_chat_type := "group",
    created_at := now, updated_at := now }

structure UserMapping where
  id : Nat
  matrix_user_id : String
  feishu_user_id : String
  feishu_username : Option String
  feishu_avatar : Option String
  created_at : String
  updated_at : String
deriving Repr, DecidableEq

structure MessageMapping where
  id : Nat
  matrix_event_id : String
  feishu_message_id : String
  thread_id : Option String
  root_id : Option String
  parent_id : Option String
  room_id : String
  sender_mxid : String
  sender_feishu_id : String
  content_hash : Option String
  created_at : String
deriving Repr, DecidableEq

structure ProcessedEventRow where
  event_id : String
  event_type : String
  source : String
  processed_at : String
deriving Repr, DecidableEq

structure DeadLetterRow where
  id : Nat
  source : String
  event_type : String
  dedupe_key : String
  chat_id : Option String
  payload : String
  error : String
  status : String
  replay_count : Nat
  last_replayed_at : Option String
  created_at : String
  updated_at : String
deriving Repr, DecidableEq

/-- In-memory portal record (`src/bridge/portal.rs`), restricted to the
fields the modelled handlers read or write; the `bridge_info.channel` map is
modelled by its two used keys `chat_mode` and `chat_type`. -/
structure Portal where
  feishuRoomId : String
  mxid : String
  name : String
  creatorMxid : String
  bridgebot : String
  chatMode : Option String
  chatType : Option String
  roomType : Bool
  lastEvent : Option String
deriving Repr, DecidableEq

/-- `RoomType`: `true` models `Direct`, `false` models `Group`. -/
def RoomTypeDirect : Bool := true

/-- Rust `BridgePortal::new`: the bridge bot mxid is hardcoded. -/
def Portal.make (feishuRoomId mxid name creatorMxid : String) : Portal :=
  { feishuRoomId, mxid, name, creatorMxid,
    bridgebot := "@feishubot:localhost", chatMode := none, chatType := none,
    roomType := false, lastEvent := none }

/-! ## Bridge state

One record holds the database tables (as insertion-ordered lists), the two
LRU caches of `SqliteStores`, and the in-memory portal maps of
`FeishuBridge`.  `nextXId` models SQLite AUTOINCREMENT. -/

structure BridgeState where
  roomMappings : List RoomMapping := []
  nextRoomId : Nat := 1
  roomCache : List (String × RoomMapping) := []
  userMappings : List UserMapping := []
  nextUserId : Nat := 1
  userCache : List (String × UserMapping) := []
  messageMappings : List MessageMapping := []
  nextMessageId : Nat := 1
  processedEvents : List ProcessedEventRow := []
  deadLetters : List DeadLetterRow := []
  nextDeadLetterId : Nat := 1
  portalsByMxid : List (String × Portal) := []
  portalsByFeishu : List (String × String) := []
deriving Repr, DecidableEq

/-! ## LRU cache (`lru::LruCache` with capacity 1000) -/

/-- Cache capacity used by `SqliteStores::new`. -/
def lruCap : Nat := 1000

/-- `LruCache::get`: on a hit the entry is promoted to most-recent. -/
def lruGet {α : Type} (cache : List (String × α)) (k : String) :
    Option α × List (String × α) :=
  match cache.find? (fun p => p.1 == k) with
  | some p => (some p.2, p :: cache.filter (fun q => !(q.1 == k)))
  | none => (none, cache)

/-- `LruCache::put`: insert as most-recent, evicting beyond capacity. -/
def lruPut {α : Type} (cache : List (String × α)) (k : String) (v : α) :
    List (String × α) :=
  ((k, v) :: cache.filter (fun q => !(q.1 == k))).take lruCap

/-- Plain map insert for the portal hash maps. -/
def assocInsert {α : Type} (m : List (String × α)) (k : String) (v : α) :
    List (String × α) :=
  (k, v) :: m.filter (fun q => !(q.1 == k))

/-- Plain map removal for the portal hash maps. -/
def assocRemove {α : Type} (m : List (String × α)) (k : String) :
    List (String × α) :=
  m.filter (fun q => !(q.1 == k))

/-! ## Store operations (`src/database/sqlite_stores.rs`)

Reads return the row plus the successor state (the LRU cache mutates on
reads).  Single-row writes cannot fail in this model except where a UNIQUE
constraint applies, in which case they return `Except String`. -/

/-- `RoomStore::get_room_by_matrix_id`, including the `mx:` cache key. -/
def getRoomByMatrixId (st : BridgeState) (matrixRoomId : String) :
    Option RoomMapping × BridgeState :=
  let key := "mx:" ++ matrixRoomId
  let g := lruGet st.roomCache key
  match g.1 with
  | some cached => (some cached, { st with roomCache := g.2 })
  | none =>
    match st.roomMappings.find? (fun r => r.matrix_room_id == matrixRoomId) with
    | some room => (some room, { st with roomCache := lruPut g.2 key room })
    | none => (none, { st with roomCache := g.2 })

/-- `RoomStore::get_room_by_feishu_id`, including the `fs:` cache key. -/
def getRoomByFeishuId (st : BridgeState) (feishuChatId : String) :
    Option RoomMapping × BridgeState :=
  let key := "fs:" ++ feishuChatId
  let g := lruGet st.roomCache key
  match g.1 with
  | some cached => (some cached, { st with roomCache := g.2 })
  | none =>
    match st.roomMappings.find? (fun r => r.feishu_chat_id == feishuChatId) with
    | some room => (some room, { st with roomCache := lruPut g.2 key room })
    | none => (none, { st with roomCache := g.2 })

/-- `RoomStore::create_room_mapping`; the two UNIQUE columns raise
`Duplicate`.  The LRU cache is not touched. -/
def createRoomMapping (st : BridgeState) (m : RoomMapping) :
    Except String BridgeState :=
  if st.roomMappings.any (fun r =>
      r.matrix_room_id == m.matrix_room_id || r.feishu_chat_id == m.feishu_chat_id)
  then .error "Duplicate"
  else .ok { st with
    roomMappings := st.roomMappings ++ [{ m with id := st.nextRoomId }],
    nextRoomId := st.nextRoomId + 1 }

/-- `RoomStore::update_room_mapping`: rewrites the whole row matched by id.
Note that the LRU cache is not invalidated. -/
def updateRoomMapping (st : BridgeState) (m : RoomMapping) : BridgeState :=
  { st with roomMappings :=
      st.roomMappings.map (fun r => if r.id == m.id then m else r) }

/-- `RoomStore::delete_room_mapping`.  The LRU cache is not invalidated. -/
def deleteRoomMapping (st : BridgeState) (i : Nat) : BridgeState :=
  { st with roomMappings := st.roomMappings.filter (fun r => !(r.id == i)) }

/-- `UserStore::get_user_by_matrix_id`. -/
def getUserByMatrixId (st : BridgeState) (matrixUserId : String) :
    Option UserMapping × BridgeState :=
  let key := "mx:" ++ matrixUserId
  let g := lruGet st.userCache key
  match g.1 with
  | some cached => (some cached, { st with userCache := g.2 })
  | none =>
    match st.userMappings.find? (fun r => r.matrix_user_id == matrixUserId) with
    | some user => (some user, { st with userCache := lruPut g.2 key user })
    | none => (none, { st with userCache := g.2 })

/-- `UserStore::update_user_mapping`.  The LRU cache is not invalidated. -/
def updateUserMapping (st : BridgeState) (m : UserMapping) : BridgeState :=
  { st with userMappings :=
      st.userMappings.map (fun r => if r.id == m.id then m else r) }

/-- `UserStore::delete_user_mapping`.  The LRU cache is not invalidated. -/
def deleteUserMapping (st : BridgeState) (i : Nat) : BridgeState :=
  { st with userMappings := st.userMappings.filter (fun r => !(r.id == i)) }

/-- `MessageStore::get_message_by_matrix_id` (no cache in front). -/
def getMessageByMatrixId (st : BridgeState) (eid : String) : Option MessageMapping :=
  st.messageMappings.find? (fun m => m.matrix_event_id == eid)

/-- `MessageStore::get_message_by_feishu_id`. -/
def getMessageByFeishuId (st : BridgeState) (fid : String) : Option MessageMapping :=
  st.messageMappings.find? (fun m => m.feishu_message_id == fid)

/-- `MessageStore::get_message_by_content_hash`. -/
def getMessageByContentHash (st : BridgeState) (h : String) : Option MessageMapping :=
  st.messageMappings.find? (fun m => m.content_hash == some h)

/-- `MessageStore::create_message_mapping`; `matrix_event_id` and
`feishu_message_id` are UNIQUE. -/
def createMessageMapping (st : BridgeState) (m : MessageMapping) :
    BridgeState × Except String Unit :=
  if st.messageMappings.any (fun r =>
      r.matrix_event_id == m.matrix_event_id ||
      r.feishu_message_id == m.feishu_message_id)
  then (st, .error "Duplicate")
  else ({ st with
    messageMappings := st.messageMappings ++ [{ m with id := st.nextMessageId }],
    nextMessageId := st.nextMessageId + 1 }, .ok ())

/-- `MessageStore::delete_message_mapping`. -/
def deleteMessageMapping (st : BridgeState) (i : Nat) : BridgeState :=
  { st with messageMappings := st.messageMappings.filter (fun r => !(r.id == i)) }

/-- `MessageStore::get_messages_by_room`: filtered by room, `id DESC`
(reverse of insertion order here), limited. -/
def getMessagesByRoom (st : BridgeState) (roomId : String) (limit : Nat) :
    List MessageMapping :=
  ((st.messageMappings.filter (fun m => m.room_id == roomId)).reverse).take limit

/-- `EventStore::is_event_processed`. -/
def isEventProcessed (st : BridgeState) (eid : String) : Bool :=
  st.processedEvents.any (fun r => r.event_id == eid)

/-- `EventStore::mark_event_processed`; `event_id` is UNIQUE. -/
def markEventProcessed (st : BridgeState) (row : ProcessedEventRow) :
    Except String BridgeState :=
  if st.processedEvents.any (fun r => r.event_id == row.event_id)
  then .error "Duplicate"
  else .ok { st with processedEvents := st.processedEvents ++ [row] }

/-- `DeadLetterStore::get_dead_letter_by_id`. -/
def getDeadLetterById (st : BridgeState) (i : Nat) : Option DeadLetterRow :=
  st.deadLetters.find? (fun r => r.id == i)

/-- `DeadLetterStore::create_dead_letter`: INSERT with
`ON CONFLICT(dedupe_key) DO UPDATE` of error, payload, status (forced back
to `pending`) and `updated_at`, then a re-read of the row by dedupe key. -/
def createDeadLetter (st : BridgeState) (row : DeadLetterRow) :
    Except String (BridgeState × DeadLetterRow) :=
  match st.deadLetters.find? (fun r => r.dedupe_key == row.dedupe_key) with
  | some old =>
    let updated := { old with
      error := row.error, payload := row.payload,
      status := "pending", updated_at := row.updated_at }
    let rows := st.deadLetters.map (fun r => if r.id == old.id then updated else r)
    match rows.find? (fun r => r.dedupe_key == row.dedupe_key) with
    | some saved => .ok ({ st with deadLetters := rows }, saved)
    | none => .error "NotFound"
  | none =>
    let fresh := { row with id := st.nextDeadLetterId }
    let rows := st.deadLetters ++ [fresh]
    match rows.find? (fun r => r.dedupe_key == row.dedupe_key) with
    | some saved =>
      .ok ({ st with
        deadLetters := rows,
        nextDeadLetterId := st.nextDeadLetterId + 1 }, saved)
    | none => .error "NotFound"

/-- `DeadLetterStore::mark_dead_letter_replayed`: sets status, increments
`replay_count` atomically and stamps `last_replayed_at`/`updated_at`. -/
def markDeadLetterReplayed (st : BridgeState) (i : Nat) (now : String) : BridgeState :=
  { st with deadLetters := st.deadLetters.map (fun r =>
      if r.id == i then
        { r with
          status := "replayed", replay_count := r.replay_count + 1,
          last_replayed_at := some now, updated_at := now }
      else r) }

/-- `DeadLetterStore::mark_dead_letter_failed`. -/
def markDeadLetterFailed (st : BridgeState) (i : Nat) (msg now : String) : BridgeState :=
  { st with deadLetters := st.deadLetters.map (fun r =>
      if r.id == i then { r with status := "failed", error := msg, updated_at := now }
      else r) }

/-! ## Matrix events and the message-flow translator
(`src/bridge/event_processor.rs`, `src/bridge/message_flow.rs`)

The JSON content of a Matrix event is modelled by the fields the code
actually reads: `body`, `msgtype`, `url` and `redacts` at a level, plus
`m.relates_to` and `m.new_content`.  A present `new_content` models a
present JSON object (the Rust code filters on `is_object`). -/

structure ContentCore where
  body : Option String := none
  msgtype : Option String := none
  url : Option String := none
  redacts : Option String := none
deriving Repr, DecidableEq

structure RelatesTo where
  in_reply_to : Option String := none
  rel_type : Option String := none
  event_id : Option String := none
deriving Repr, DecidableEq

structure MatrixContent where
  core : ContentCore := {}
  relates_to : Option RelatesTo := none
  new_content : Option ContentCore := none
deriving Repr, DecidableEq

/-- `MatrixEvent` in `src/bridge/event_processor.rs`. -/
structure MatrixEvent where
  event_id : Option String
  event_type : String
  room_id : String
  sender : String
  state_key : Option String := none
  content : Option MatrixContent
deriving Repr, DecidableEq

/-- `MessageRelation` in `src/bridge/message_flow.rs`. -/
inductive MessageRelation
  | reply (event_id : String)
  | replace (event_id : String)
deriving Repr, DecidableEq

/-- `MessageAttachment` in `src/bridge/message_flow.rs`. -/
structure MessageAttachment where
  name : String
  url : String
  kind : String
deriving Repr, DecidableEq

/-- `MatrixInboundMessage`. -/
structure MatrixInboundMessage where
  event_id : Option String
  room_id : String
  sender : String
  body : String
  relation : Option MessageRelation
  attachments : List MessageAttachment
deriving Repr, DecidableEq

/-- `OutboundFeishuMessage`.  The repository holds two shapes for the
`attachments` field; the dispatcher and hash code in
`src/bridge/event_processor.rs` and `src/bridge/matrix_event_parser.rs`
treat entries as `MessageAttachment` records (name, url, kind), which is
the shape embedded here. -/
structure OutboundFeishuMessage where
  content : String
  msg_type : String
  reply_to : Option String
  edit_of : Option String
  attachments : List MessageAttachment
deriving Repr, DecidableEq

/-- The msgtypes `parse_attachments` treats as attachments. -/
def attachmentTypes : List String :=
  ["m.image", "m.audio", "m.video", "m.file", "m.sticker"]

/-- `parse_relation`: an `m.in_reply_to.event_id` wins; otherwise an
`m.replace` relation with an `event_id` yields an edit relation. -/
def parseRelation (c : MatrixContent) : Option MessageRelation :=
  match c.relates_to with
  | none => none
  | some r =>
    match r.in_reply_to with
    | some eid => some (.reply eid)
    | none =>
      if r.rel_type = some "m.replace" then
        match r.event_id with
        | some eid => some (.replace eid)
        | none => none
      else none

/-- `parse_attachments`: a single attachment from `url` for attachment-kind
msgtypes, named by `body` with a `matrix-media` fallback. -/
def parseAttachments (cfb : ContentCore) (msgtype : String) : List MessageAttachment :=
  if attachmentTypes.contains msgtype then
    match cfb.url with
    | none => []
    | some url => [{ name := cfb.body.getD "matrix-media", url, kind := msgtype }]
  else []

/-- `MessageFlow::parse_matrix_event`: reads `m.new_content` when present,
defaults the msgtype from the event type, drops empty messages. -/
def parseMatrixEvent (eventType : String) (c : MatrixContent) :
    Option MatrixInboundMessage :=
  if eventType = "m.room.message" ∨ eventType = "m.sticker" then
    let cfb := c.new_content.getD c.core
    let body := cfb.body.getD ""
    let msgtype := cfb.msgtype.getD
      (if eventType = "m.sticker" then "m.sticker" else "m.text")
    let relation := parseRelation c
    let attachments := parseAttachments cfb msgtype
    if body = "" ∧ attachments = [] then none
    else some { event_id := none, room_id := "", sender := "",
                body, relation, attachments }
  else none

/-- The formatter crate (`src/formatter`), declared out of scope by the
specification, is modelled as an abstract record of converters. -/
structure FormatterOracle where
  htmlToFeishu : String → String
  markdownToFeishu : String → String
  textToFeishu : String → String
  createRichText : String → String

/-- The identity formatter, used to instantiate concrete runs. -/
def idFormatter : FormatterOracle :=
  { htmlToFeishu := id, markdownToFeishu := id, textToFeishu := id,
    createRichText := id }

/-- `BridgeConfig` (`src/config/bridge.rs`), restricted to the fields the
modelled code reads, plus the homeserver identity the bridge derives its
bot mxid from. -/
structure BridgeConfig where
  bridge_matrix_reply : Bool := false
  bridge_matrix_edit : Bool := false
  bridge_matrix_reactions : Bool := false
  bridge_matrix_redactions : Bool := false
  allow_html : Bool := false
  allow_markdown : Bool := true
  enable_rich_text : Bool := true
  blocked_matrix_msgtypes : List String := []
  max_text_length : Nat := 0
  homeserver_domain : String := "localhost"
  bot_username : String := "feishubot"
deriving Repr, DecidableEq

/-- `MessageFlow::format_for_feishu`. -/
def formatForFeishu (cfg : BridgeConfig) (fmtr : FormatterOracle) (content : String) :
    String :=
  let r := content
  let r := if cfg.allow_html then fmtr.htmlToFeishu r else r
  if cfg.allow_markdown then fmtr.markdownToFeishu r else fmtr.textToFeishu r

/-- `MessageFlow::matrix_to_feishu`: splits the relation into
`reply_to`/`edit_of`, formats the body, and picks `post` or `text` from
`enable_rich_text`. -/
def matrixToFeishu (cfg : BridgeConfig) (fmtr : FormatterOracle)
    (m : MatrixInboundMessage) : OutboundFeishuMessage :=
  let reply_to := match m.relation with
    | some (.reply eid) => some eid
    | _ => none
  let edit_of := match m.relation with
    | some (.replace eid) => some eid
    | _ => none
  { content := formatForFeishu cfg fmtr m.body,
    msg_type := if cfg.enable_rich_text then "post" else "text",
    reply_to, edit_of, attachments := m.attachments }

/-! ## Outbound content hash and delivery UUID
(`src/bridge/matrix_event_parser.rs`) -/

/-- `outbound_content_hash`: SHA-256 over the concatenation of the optional
event id, room id, sender, outbound msg type and content, the optional
reply and edit targets, and each attachment's kind and url in order. -/
def outboundContentHash (e : MatrixEvent) (o : OutboundFeishuMessage) : String :=
  let pieces :=
    (match e.event_id with | some eid => [eid] | none => [])
    ++ [e.room_id, e.sender, o.msg_type, o.content]
    ++ (match o.reply_to with | some r => [r] | none => [])
    ++ (match o.edit_of with | some r => [r] | none => [])
    ++ (o.attachments.map (fun a => [a.kind, a.url])).flatten
  hexEncode (Sha256.sha256 ((pieces.map strBytes).flatten))

/-- `outbound_delivery_uuid`: the first 32 hex characters of the SHA-256 of
the event id (or `unknown`) followed by the content hash. -/
def outboundDeliveryUuid (eventId : Option String) (contentHash : String) : String :=
  let digest := Sha256.sha256 (strBytes (eventId.getD "unknown") ++ strBytes contentHash)
  strTake (hexEncode digest) 32

/-! ## External effects

Handlers emit `Action`s describing their outbound calls; the results of
those calls are supplied by environment records.  Media download, upload
and cache handling inside attachment forwarding are collapsed into a single
oracle per attachment. -/

/-- The serialized content of a Feishu message call: plain text carries the
body, a `post` carries the rich-text rendering. -/
inductive FeishuPayload
  | text (body : String)
  | post (body : String)
deriving Repr, DecidableEq

/-- Attachment parsed from a Feishu message (`Attachment` in
`src/bridge/message.rs`, restricted to the fields the handlers read). -/
structure FsAttachment where
  name : String
  url : String
  mime_type : String
deriving Repr, DecidableEq

/-- External calls made by the handlers. -/
inductive Action
  | feishuSend (receive_id_type receive_id msg_type : String)
      (content : FeishuPayload) (uuid : Option String)
  | feishuReply (target_message_id msg_type : String) (content : FeishuPayload)
      (reply_in_thread : Bool) (uuid : Option String)
  | feishuUpdate (message_id msg_type : String) (content : FeishuPayload)
  | feishuRecall (message_id : String)
  | attachmentUpload (feishu_chat_id : String) (att : MessageAttachment)
  | matrixSendText (room_id body : String) (reply_to : Option String)
  | matrixAttachment (room_id : String) (att : FsAttachment) (reply_to : Option String)
  | matrixRedact (room_id event_id : String)
  | matrixNotice (room_id body : String)
  | replayDispatch (event_type payload : String)
  | log (context : String)
deriving Repr, DecidableEq

/-- The delivery uuid carried by a Feishu send or reply call, if any. -/
def Action.deliveryUuid : Action → Option String
  | .feishuSend _ _ _ _ u => u
  | .feishuReply _ _ _ _ u => u
  | _ => none

/-- `FeishuMessageSendData` returned by send/reply. -/
structure FeishuMessageSendData where
  message_id : String
  root_id : Option String := none
  parent_id : Option String := none
  thread_id : Option String := none
deriving Repr, DecidableEq

/-- Environment for the Matrix-to-Feishu path: the value `Uuid::new_v4()`
returns for the primary send, the Feishu API results, the per-attachment
forwarding outcome (message id on success) and the current timestamp. -/
structure MatrixEnv where
  freshUuid : String
  sendResult : Except String FeishuMessageSendData
  updateResult : Except String Unit
  recallResult : Except String Unit
  attachmentResult : MessageAttachment → Option String
  now : String

/-! ## Matrix event processor (`src/bridge/event_processor.rs`) -/

/-- `build_feishu_content_payload`: `post` builds a rich-text body, any
other msg type is coerced to plain `text`. -/
def buildFeishuContentPayload (fmtr : FormatterOracle) (msgType body : String) :
    String × FeishuPayload :=
  if msgType = "post" then ("post", .post (fmtr.createRichText body))
  else ("text", .text body)

/-- `MatrixEventProcessor::send_outbound_message`: skips empty content,
generates a fresh random v4 uuid, replies when `bridge_matrix_reply` is set
and the reply target maps, otherwise sends to the chat. -/
def sendOutboundMessage (cfg : BridgeConfig) (fmtr : FormatterOracle)
    (st : BridgeState) (mapping : RoomMapping) (outbound : OutboundFeishuMessage)
    (env : MatrixEnv) :
    BridgeState × List Action × Except String (Option FeishuMessageSendData) :=
  if strTrim outbound.content = "" then (st, [], .ok none)
  else
    let (msgType, content) := buildFeishuContentPayload fmtr outbound.msg_type outbound.content
    let uuid := some env.freshUuid
    let replyInThread := eqIgnoreAsciiCase mapping.feishu_chat_type "thread"
    let plainSend : List Action × Except String (Option FeishuMessageSendData) :=
      match env.sendResult with
      | .ok data =>
        ([.feishuSend "chat_id" mapping.feishu_chat_id msgType content uuid], .ok (some data))
      | .error msg =>
        ([.feishuSend "chat_id" mapping.feishu_chat_id msgType content uuid], .error msg)
    if cfg.bridge_matrix_reply then
      match outbound.reply_to with
      | some replyTo =>
        match getMessageByMatrixId st replyTo with
        | some replyMapping =>
          match env.sendResult with
          | .ok data =>
            (st, [.feishuReply replyMapping.feishu_message_id msgType content replyInThread uuid],
             .ok (some data))
          | .error msg =>
            (st, [.feishuReply replyMapping.feishu_message_id msgType content replyInThread uuid],
             .error msg)
        | none => (st, plainSend.1, plainSend.2)
      | none => (st, plainSend.1, plainSend.2)
    else (st, plainSend.1, plainSend.2)

/-- `MatrixEventProcessor::handle_edit_message`: no-op when edits are
disabled or the target has no mapping; otherwise updates the Feishu
message, coercing the msg type to `text`/`post`. -/
def handleEditMessage (cfg : BridgeConfig) (fmtr : FormatterOracle)
    (st : BridgeState) (matrixTargetEventId : String)
    (outbound : OutboundFeishuMessage) (env : MatrixEnv) :
    BridgeState × List Action × Except String Unit :=
  if ¬ cfg.bridge_matrix_edit then (st, [], .ok ())
  else
    match getMessageByMatrixId st matrixTargetEventId with
    | none => (st, [.log "edit target has no mapping"], .ok ())
    | some target =>
      let (msgType0, content) :=
        buildFeishuContentPayload fmtr outbound.msg_type outbound.content
      let msgType := if msgType0 ≠ "text" ∧ msgType0 ≠ "post" then "text" else msgType0
      match env.updateResult with
      | .ok _ => (st, [.feishuUpdate target.feishu_message_id msgType content], .ok ())
      | .error msg => (st, [.feishuUpdate target.feishu_message_id msgType content], .error msg)

/-- `MatrixEventProcessor::forward_attachments_to_feishu`: forwards each
attachment in order, collecting the Feishu message ids of successes and
logging failures without aborting. -/
def forwardAttachmentsToFeishu (feishuChatId : String)
    (atts : List MessageAttachment) (env : MatrixEnv) :
    List Action × List String :=
  atts.foldl
    (fun acc a =>
      match env.attachmentResult a with
      | some mid => (acc.1 ++ [.attachmentUpload feishuChatId a], acc.2 ++ [mid])
      | none => (acc.1 ++ [.attachmentUpload feishuChatId a, .log "attachment failed"], acc.2))
    ([], [])

/-- `MatrixCommandOutcome`. -/
inductive MatrixCommandOutcome
  | ignored
  | reply (msg : String)
  | bridgeRequested (feishu_chat_id : String)
  | unbridgeRequested
deriving Repr, DecidableEq

/-- `MatrixCommandHandler::is_command` with the `!feishu` command marker. -/
def matrixIsCommand (body : String) : Bool :=
  strStartsWith (strTrim body) "!feishu"

/-- `MatrixCommandHandler::handle` with `self_service_enabled = true`, as
constructed by the event processor. -/
def matrixCommandHandle (body : String) (isBridged : Bool) : MatrixCommandOutcome :=
  let parts := splitWhitespace (strTrim body)
  match parts with
  | [] => .ignored
  | p0 :: rest =>
    if p0 ≠ "!feishu" then .ignored
    else
      match rest.head? with
      | some "bridge" =>
        if isBridged then .reply "This room is already bridged to a Feishu chat."
        else
          match rest.get? 1 with
          | some chatId => .bridgeRequested chatId
          | none => .reply "Usage: !feishu bridge <feishu_chat_id>"
      | some "unbridge" =>
        if ¬ isBridged then .reply "This room is not bridged to any Feishu chat."
        else .unbridgeRequested
      | some "help" => .reply "help text"
      | some "ping" => .reply "Pong!"
      | _ => .reply "Unknown command. Use !feishu help for available commands."

/-- `MatrixEventProcessor::handle_command` together with
`handle_bridge_request` and `handle_unbridge_request`. -/
def handleCommand (st : BridgeState) (e : MatrixEvent) (body : String)
    (env : MatrixEnv) : BridgeState × List Action × Except String Unit :=
  let (roomOpt, st1) := getRoomByMatrixId st e.room_id
  match matrixCommandHandle body roomOpt.isSome with
  | .ignored => (st1, [], .ok ())
  | .reply _ => (st1, [.log "command reply not implemented"], .ok ())
  | .bridgeRequested chatId =>
    let (existing, st2) := getRoomByFeishuId st1 chatId
    if existing.isSome then (st2, [.log "chat already bridged"], .ok ())
    else
      let m := RoomMapping.make e.room_id chatId (some "Bridged Room") env.now
      match createRoomMapping st2 m with
      | .ok st3 => (st3, [], .ok ())
      | .error msg => (st2, [], .error msg)
  | .unbridgeRequested =>
    let (opt2, st2) := getRoomByMatrixId st1 e.room_id
    match opt2 with
    | none => (st2, [.log "room not bridged"], .ok ())
    | some m => (deleteRoomMapping st2 m.id, [], .ok ())

/-- `MatrixEventProcessor::handle_message_event`: command detection, room
lookup, parse, translate, edit branch, primary send, attachment forwarding,
primary selection and mapping persist (with swallowed persist errors).
No content-hash computation or lookup occurs on this path, and the mapping
is persisted with `content_hash = None`. -/
def handleMessageEvent (cfg : BridgeConfig) (fmtr : FormatterOracle)
    (st : BridgeState) (e : MatrixEvent) (env : MatrixEnv) :
    BridgeState × List Action × Except String Unit :=
  match e.content with
  | none => (st, [], .ok ())
  | some c =>
    let body := c.core.body.getD ""
    if matrixIsCommand body then handleCommand st e body env
    else
      let (roomOpt, st1) := getRoomByMatrixId st e.room_id
      match roomOpt with
      | none => (st1, [], .ok ())
      | some mapping =>
        match parseMatrixEvent e.event_type c with
        | none => (st1, [], .ok ())
        | some inbound =>
          let outbound := matrixToFeishu cfg fmtr
            { inbound with event_id := e.event_id, room_id := e.room_id,
                           sender := e.sender }
          match outbound.edit_of with
          | some target => handleEditMessage cfg fmtr st1 target outbound env
          | none =>
            match sendOutboundMessage cfg fmtr st1 mapping outbound env with
            | (st2, acts1, .error msg) => (st2, acts1, .error msg)
            | (st2, acts1, .ok primary) =>
              let (acts2, attIds) :=
                forwardAttachmentsToFeishu mapping.feishu_chat_id outbound.attachments env
              let primary2 := match primary with
                | some p => some p
                | none => attIds.head?.map
                    (fun mid => { message_id := mid : FeishuMessageSendData })
              match e.event_id, primary2 with
              | some eid, some fm =>
                let link : MessageMapping :=
                  { id := 0, matrix_event_id := eid,
                    feishu_message_id := fm.message_id,
                    thread_id := fm.thread_id, root_id := fm.root_id,
                    parent_id := fm.parent_id, room_id := e.room_id,
                    sender_mxid := e.sender, sender_feishu_id := "matrix",
                    content_hash := none, created_at := env.now }
                ((createMessageMapping st2 link).1, acts1 ++ acts2, .ok ())
              | _, _ => (st2, acts1 ++ acts2, .ok ())

/-- `MatrixEventProcessor::handle_redaction_event`. -/
def handleRedactionEvent (cfg : BridgeConfig) (st : BridgeState)
    (e : MatrixEvent) (env : MatrixEnv) :
    BridgeState × List Action × Except String Unit :=
  if ¬ cfg.bridge_matrix_redactions then (st, [], .ok ())
  else
    match e.content.bind (fun c => c.core.redacts) with
    | none => (st, [], .ok ())
    | some rid =>
      match getMessageByMatrixId st rid with
      | none => (st, [], .ok ())
      | some mapping =>
        match env.recallResult with
        | .error msg => (st, [.feishuRecall mapping.feishu_message_id], .error msg)
        | .ok _ =>
          (deleteMessageMapping st mapping.id,
           [.feishuRecall mapping.feishu_message_id], .ok ())

/-- The event-type dispatch inside `MatrixEventProcessor::process_event`;
member and reaction events only log. -/
def dispatchMatrixEvent (cfg : BridgeConfig) (fmtr : FormatterOracle)
    (st : BridgeState) (e : MatrixEvent) (env : MatrixEnv) :
    BridgeState × List Action × Except String Unit :=
  match e.event_type with
  | "m.room.message" => handleMessageEvent cfg fmtr st e env
  | "m.sticker" => handleMessageEvent cfg fmtr st e env
  | "m.room.member" => (st, [], .ok ())
  | "m.room.redaction" => handleRedactionEvent cfg st e env
  | "m.reaction" => (st, [], .ok ())
  | _ => (st, [], .ok ())

/-- `MatrixEventProcessor::process_event`: skips already-processed events,
dispatches, then marks the event processed under its raw event id with
source `matrix`. -/
def processMatrixEvent (cfg : BridgeConfig) (fmtr : FormatterOracle)
    (st : BridgeState) (e : MatrixEvent) (env : MatrixEnv) :
    BridgeState × List Action × Except String Unit :=
  let earlyHit := match e.event_id with
    | some eid => isEventProcessed st eid
    | none => false
  if earlyHit then (st, [], .ok ())
  else
    match dispatchMatrixEvent cfg fmtr st e env with
    | (st1, acts, .error msg) => (st1, acts, .error msg)
    | (st1, acts, .ok _) =>
      match e.event_id with
      | some eid =>
        match markEventProcessed st1
          { event_id := eid, event_type := e.event_type, source := "matrix",
            processed_at := env.now } with
        | .ok st2 => (st2, acts, .ok ())
        | .error msg => (st1, acts, .error msg)
      | none => (st1, acts, .ok ())

/-! ## Feishu-to-Matrix bridge handlers (`src/bridge/feishu_bridge.rs`) -/

/-- `BridgeMessage` (`src/bridge/message.rs`), restricted to the fields the
handlers read. -/
structure BridgeMessage where
  id : String
  sender : String
  room_id : String
  content : String
  attachments : List FsAttachment
  thread_id : Option String := none
  root_id : Option String := none
  parent_id : Option String := none
deriving Repr, DecidableEq

/-- The slice of `FeishuChatData` the message handler reads. -/
structure ChatData where
  name : Option String
deriving Repr, DecidableEq

/-- Environment for the Feishu-to-Matrix path: results of the Feishu
`get_chat`/`get_user` lookups, of the Matrix intent calls, the per-
attachment forwarding outcome (Matrix event id on success) and the current
timestamp. -/
structure FeishuEnv where
  getChat : Except String ChatData
  ensureRegistered : Except String Unit
  sendTextResult : Except String String
  attachmentResult : FsAttachment → Option String
  getUser : String → Except String String
  noticeResult : Except String Unit
  redactResult : Except String Unit
  now : String

/-- The bridge bot mxid derived from the configuration. -/
def botMxid (cfg : BridgeConfig) : String :=
  "@" ++ cfg.bot_username ++ ":" ++ cfg.homeserver_domain

/-- `sanitize_identifier`: keep ASCII alphanumerics, replace the rest by
underscores, defaulting empty input. -/
def sanitizeIdentifier (s : String) : String :=
  let t := String.mk (s.data.map (fun ch => if ch.isAlphanum then ch else '_'))
  if t = "" then "unknown" else t

/-- `FeishuBridge::get_or_create_portal_by_feishu_room`. -/
def getOrCreatePortalByFeishuRoom (cfg : BridgeConfig) (st : BridgeState)
    (feishuRoomId : String) : Portal × BridgeState :=
  let cachedPortal :=
    match st.portalsByFeishu.find? (fun p => p.1 == feishuRoomId) with
    | some entry =>
      match st.portalsByMxid.find? (fun p => p.1 == entry.2) with
      | some found => some found.2
      | none => none
    | none => none
  match cachedPortal with
  | some portal => (portal, st)
  | none =>
    let mxid := "!feishu_" ++ sanitizeIdentifier feishuRoomId ++ ":" ++ cfg.homeserver_domain
    let portal := Portal.make feishuRoomId mxid ("Feishu " ++ feishuRoomId) (botMxid cfg)
    (portal, { st with
      portalsByMxid := assocInsert st.portalsByMxid mxid portal,
      portalsByFeishu := assocInsert st.portalsByFeishu feishuRoomId mxid })

/-- The attachment loop of `forward_feishu_attachments_to_matrix`: a pending
reply target is attached to attachments until the first success. -/
def forwardFeishuAttachmentsGo (env : FeishuEnv) (portalMxid : String) :
    List FsAttachment → Option String → List Action × List String →
    List Action × List String
  | [], _, acc => acc
  | a :: rest, pending, (acts, ids) =>
    match env.attachmentResult a with
    | some eid =>
      forwardFeishuAttachmentsGo env portalMxid rest none
        (acts ++ [.matrixAttachment portalMxid a pending], ids ++ [eid])
    | none =>
      forwardFeishuAttachmentsGo env portalMxid rest pending
        (acts ++ [.matrixAttachment portalMxid a pending, .log "attachment failed"], ids)

/-- `FeishuBridge::forward_feishu_attachments_to_matrix`. -/
def forwardFeishuAttachments (env : FeishuEnv) (portalMxid : String)
    (atts : List FsAttachment) (replyTo : Option String) :
    List Action × List String :=
  forwardFeishuAttachmentsGo env portalMxid atts replyTo ([], [])

/-- The chat-name backfill step of `handle_feishu_message`: when the stored
mapping has no chat name and the `get_chat` lookup produced one, the name
is written back to the room mapping (update failures are logged and
swallowed). -/
def backfillChatName (st : BridgeState) (mapping : RoomMapping)
    (chatProfile : Option ChatData) (now : String) : BridgeState × RoomMapping :=
  if mapping.feishu_chat_name.isNone then
    match chatProfile.bind (fun chat => chat.name) with
    | some nm =>
      let m2 := { mapping with feishu_chat_name := some nm, updated_at := now }
      (updateRoomMapping st m2, m2)
    | none => (st, mapping)
  else (st, mapping)

/-- The portal-resolution step of `handle_feishu_message`: with a stored
room mapping, backfill the chat name and build the portal from the mapping;
without one, fall back to the in-memory portal registry. -/
def resolvePortal (cfg : BridgeConfig) (st1 : BridgeState)
    (roomOpt : Option RoomMapping) (chatProfile : Option ChatData)
    (feishuRoomId now : String) : Portal × BridgeState :=
  match roomOpt with
  | some mapping =>
    let s := backfillChatName st1 mapping chatProfile now
    (Portal.make feishuRoomId s.2.matrix_room_id
      ((s.2.feishu_chat_name.orElse
        (fun _ => chatProfile.bind (fun chat => chat.name))).getD feishuRoomId)
      (botMxid cfg), s.1)
  | none => getOrCreatePortalByFeishuRoom cfg st1 feishuRoomId

/-- `FeishuBridge::handle_feishu_message`: stops when a mapping for the
Feishu message id exists; resolves the portal (backfilling the chat name
when missing); resolves the reply target from `parent_id`; sends the text
and the attachments; persists a `MessageMapping` for the primary event
(errors swallowed).  No `ProcessedEvent` row is written on this path. -/
def handleFeishuMessage (cfg : BridgeConfig) (st : BridgeState)
    (msg : BridgeMessage) (env : FeishuEnv) :
    BridgeState × List Action × Except String Unit :=
  match getMessageByFeishuId st msg.id with
  | some _ => (st, [], .ok ())
  | none =>
    let r1 := getRoomByFeishuId st msg.room_id
    let roomOpt := r1.1
    let st1 := r1.2
    let needsChat := match roomOpt with
      | some m => m.feishu_chat_name.isNone
      | none => true
    let chatProfile : Option ChatData :=
      if needsChat then env.getChat.toOption else none
    let rp := resolvePortal cfg st1 roomOpt chatProfile msg.room_id env.now
    let portal := rp.1
    let st2 := rp.2
    match env.ensureRegistered with
    | .error msg2 => (st2, [], .error msg2)
    | .ok _ =>
      let replyTarget : Option String :=
        match msg.parent_id with
        | some pid =>
          match getMessageByFeishuId st2 pid with
          | some parentMapping => some parentMapping.matrix_event_id
          | none => none
        | none => none
      let textStep : Except String (List Action × Option String) :=
        if strTrim msg.content = "" then .ok ([], none)
        else
          match env.sendTextResult with
          | .ok eid =>
            .ok ([.matrixSendText portal.mxid msg.content replyTarget], some eid)
          | .error e => .error e
      match textStep with
      | .error e =>
        (st2, [.matrixSendText portal.mxid msg.content replyTarget], .error e)
      | .ok (textActs, primary0) =>
        let fwd := forwardFeishuAttachments env portal.mxid msg.attachments
          (if primary0.isNone then replyTarget else none)
        let primary := match primary0 with
          | some p => some p
          | none => fwd.2.head?
        match primary with
        | some mid =>
          let link : MessageMapping :=
            { id := 0, matrix_event_id := mid, feishu_message_id := msg.id,
              thread_id := msg.thread_id, root_id := msg.root_id,
              parent_id := msg.parent_id, room_id := portal.mxid,
              sender_mxid := portal.bridgebot, sender_feishu_id := msg.sender,
              content_hash := none, created_at := env.now }
          ((createMessageMapping st2 link).1, textActs ++ fwd.1, .ok ())
        | none => (st2, textActs ++ fwd.1, .ok ())

/-- `FeishuBridge::handle_feishu_message_recalled`: redacts the mapped
Matrix event (failures logged) and deletes the mapping row (failures
logged); never fails. -/
def handleFeishuMessageRecalled (st : BridgeState)
    (_feishuChatId feishuMessageId : String) (env : FeishuEnv) :
    BridgeState × List Action × Except String Unit :=
  match getMessageByFeishuId st feishuMessageId with
  | none => (st, [], .ok ())
  | some mapping =>
    let redactActs : List Action :=
      match env.redactResult with
      | .ok _ => [.matrixRedact mapping.room_id mapping.matrix_event_id]
      | .error _ =>
        [.matrixRedact mapping.room_id mapping.matrix_event_id, .log "redact failed"]
    (deleteMessageMapping st mapping.id, redactActs, .ok ())

/-- `FeishuBridge::resolve_feishu_user_labels`. -/
def resolveFeishuUserLabels (env : FeishuEnv) (userIds : List String) : List String :=
  userIds.map (fun uid =>
    match env.getUser uid with
    | .ok name => if strTrim name = "" then uid else name ++ "(" ++ uid ++ ")"
    | .error _ => uid)

/-- `FeishuBridge::handle_feishu_chat_member_added`: notice only, failures
logged. -/
def handleFeishuChatMemberAdded (st : BridgeState) (feishuChatId : String)
    (userIds : List String) (env : FeishuEnv) :
    BridgeState × List Action × Except String Unit :=
  let r1 := getRoomByFeishuId st feishuChatId
  match r1.1 with
  | none => (r1.2, [], .ok ())
  | some mapping =>
    if userIds.isEmpty then (r1.2, [], .ok ())
    else
      let labels := resolveFeishuUserLabels env userIds
      let notice := "Feishu members joined: " ++ String.intercalate ", " labels
      (r1.2, [.matrixNotice mapping.matrix_room_id notice], .ok ())

/-- `FeishuBridge::handle_feishu_chat_member_deleted`. -/
def handleFeishuChatMemberDeleted (st : BridgeState) (feishuChatId : String)
    (userIds : List String) (env : FeishuEnv) :
    BridgeState × List Action × Except String Unit :=
  let r1 := getRoomByFeishuId st feishuChatId
  match r1.1 with
  | none => (r1.2, [], .ok ())
  | some mapping =>
    if userIds.isEmpty then (r1.2, [], .ok ())
    else
      let labels := resolveFeishuUserLabels env userIds
      let notice := "Feishu members left: " ++ String.intercalate ", " labels
      (r1.2, [.matrixNotice mapping.matrix_room_id notice], .ok ())

/-- `trim`-and-drop-empty normalization used by the chat-updated handler. -/
def normalizeChatField (v : Option String) : Option String :=
  v.bind (fun s => if strTrim s = "" then none else some (strTrim s))

/-- `room_type_from_chat_type`: `true` (direct) for p2p-like types. -/
def roomTypeFromChatType (chatType : Option String) : Bool :=
  match chatType with
  | some "p2p" => true
  | some "private" => true
  | some "single" => true
  | _ => false

/-- `FeishuBridge::handle_feishu_chat_updated`: merges name and mode/type
into the room mapping, refreshes the in-memory portal, and emits a
mode-change notice. -/
def handleFeishuChatUpdated (st : BridgeState) (feishuChatId : String)
    (chatName chatMode chatType : Option String) (env : FeishuEnv) :
    BridgeState × List Action × Except String Unit :=
  let r1 := getRoomByFeishuId st feishuChatId
  let st1 := r1.2
  match r1.1 with
  | none => (st1, [], .ok ())
  | some mapping =>
    let nName := normalizeChatField chatName
    let nMode := normalizeChatField chatMode
    let nType := normalizeChatField chatType
    let (m1, changed1) :=
      match nName with
      | some nm =>
        if mapping.feishu_chat_name ≠ some nm then
          ({ mapping with feishu_chat_name := some nm }, true)
        else (mapping, false)
      | none => (mapping, false)
    let (m2, changed2) :=
      match nMode with
      | some mode =>
        if m1.feishu_chat_type ≠ mode then
          ({ m1 with feishu_chat_type := mode }, true)
        else (m1, changed1)
      | none =>
        match nType with
        | some ty =>
          if m1.feishu_chat_type ≠ ty then
            ({ m1 with feishu_chat_type := ty }, true)
          else (m1, changed1)
        | none => (m1, changed1)
    let st2 := if changed2 then
        updateRoomMapping st1 { m2 with updated_at := env.now }
      else st1
    let st3 :=
      match st2.portalsByMxid.find? (fun p => p.1 == mapping.matrix_room_id) with
      | none => st2
      | some entry =>
        let p0 := entry.2
        let p1 := match nName with
          | some nm => { p0 with name := nm }
          | none => p0
        let p2 := match nMode with
          | some mode =>
            { p1 with chatMode := some mode,
                      roomType := roomTypeFromChatType nType }
          | none => p1
        let p3 := match nType with
          | some ty =>
            { p2 with chatType := some ty,
                      roomType := roomTypeFromChatType (some ty) }
          | none => p2
        let p4 := { p3 with lastEvent := some "im.chat.updated_v1" }
        { st2 with portalsByMxid :=
            assocInsert st2.portalsByMxid mapping.matrix_room_id p4 }
    let acts : List Action :=
      match nMode with
      | some mode =>
        if eqIgnoreAsciiCase mode "thread" then
          [.matrixNotice mapping.matrix_room_id
            "Feishu chat mode changed to thread; bridge reply strategy is now thread mode."]
        else
          [.matrixNotice mapping.matrix_room_id
            "Feishu chat mode changed; bridge reply strategy switched to non-thread mode."]
      | none => []
    (st3, acts, .ok ())

/-- `FeishuBridge::handle_feishu_chat_disbanded`: deletes up to 2000 message
mappings of the room, the room mapping, and the in-memory portal entries,
then emits a notice. -/
def handleFeishuChatDisbanded (st : BridgeState) (feishuChatId : String)
    (_env : FeishuEnv) : BridgeState × List Action × Except String Unit :=
  let r1 := getRoomByFeishuId st feishuChatId
  let st1 := r1.2
  match r1.1 with
  | none =>
    let st2 :=
      match st1.portalsByFeishu.find? (fun p => p.1 == feishuChatId) with
      | some entry =>
        { st1 with
          portalsByFeishu := assocRemove st1.portalsByFeishu feishuChatId,
          portalsByMxid := assocRemove st1.portalsByMxid entry.2 }
      | none =>
        { st1 with portalsByFeishu := assocRemove st1.portalsByFeishu feishuChatId }
    (st2, [], .ok ())
  | some mapping =>
    let historical := getMessagesByRoom st1 mapping.matrix_room_id 2000
    let st2 := historical.foldl (fun acc m => deleteMessageMapping acc m.id) st1
    let st3 := deleteRoomMapping st2 mapping.id
    let st4 := { st3 with
      portalsByFeishu := assocRemove st3.portalsByFeishu feishuChatId,
      portalsByMxid := assocRemove st3.portalsByMxid mapping.matrix_room_id }
    (st4,
     [.matrixNotice mapping.matrix_room_id
       "Feishu chat has been disbanded; bridge mapping was removed automatically."],
     .ok ())

/-! ## Dead-letter subsystem (`src/bridge/feishu_bridge.rs`) -/

/-- `FeishuBridge::record_dead_letter`: builds a `pending` row with source
`feishu` and upserts it on the dedupe key.  Note: no code path of the
repository calls this function. -/
def recordDeadLetter (st : BridgeState) (eventType dedupeKey : String)
    (chatId : Option String) (payload errorMsg now : String) :
    Except String (BridgeState × DeadLetterRow) :=
  createDeadLetter st
    { id := 0, source := "feishu", event_type := eventType,
      dedupe_key := dedupeKey, chat_id := chatId, payload := payload,
      error := errorMsg, status := "pending", replay_count := 0,
      last_replayed_at := none, created_at := now, updated_at := now }

/-- Outcome of `replay_dead_letter_payload` on a stored payload: either the
payload fails to parse as JSON (before any dispatch), or the typed dispatch
runs and yields a result.  The typed dispatch reconstructs the original
handler call; it is modelled as an oracle keyed on the row's event type and
payload. -/
inductive ReplayOutcome
  | parseFailed (msg : String)
  | dispatched (r : Except String Unit)
deriving Repr

/-- Environment for dead-letter replay. -/
structure ReplayEnv where
  replay : String → String → ReplayOutcome
  now : String

/-- `FeishuBridge::replay_dead_letter`: missing rows fail; rows already
marked `replayed` (ASCII case-insensitively) are skipped successfully with
no dispatch; otherwise the payload is parsed and dispatched, and the row is
marked `replayed` on success or `failed` (with the error) on failure. -/
def replayDeadLetter (st : BridgeState) (i : Nat) (env : ReplayEnv) :
    BridgeState × List Action × Except String Unit :=
  match getDeadLetterById st i with
  | none => (st, [], .error "dead-letter not found")
  | some ev =>
    if eqIgnoreAsciiCase ev.status "replayed" then (st, [], .ok ())
    else
      match env.replay ev.event_type ev.payload with
      | .parseFailed msg => (st, [], .error msg)
      | .dispatched (.ok _) =>
        (markDeadLetterReplayed st ev.id env.now,
         [.replayDispatch ev.event_type ev.payload], .ok ())
      | .dispatched (.error msg) =>
        (markDeadLetterFailed st ev.id msg env.now,
         [.replayDispatch ev.event_type ev.payload], .error msg)

/-! ## Webhook front end (`src/feishu/service.rs`, `src/feishu/client.rs`) -/

/-- A webhook payload after JSON parsing and event extraction, by the
`header.event_type` dispatch of `handle_webhook`. -/
inductive WebhookEvent
  | receive (msg : BridgeMessage)
  | recalled (chat_id message_id : String)
  | memberAdded (chat_id : String) (user_ids : List String)
  | memberDeleted (chat_id : String) (user_ids : List String)
  | chatUpdated (chat_id : String) (name mode ctype : Option String)
  | disbanded (chat_id : String)
  | unsupported (event_type : String)
deriving Repr

/-- The per-event dispatch of `handle_webhook` after signature and token
verification and payload parsing succeed: the handler is queued on the
per-chat queue and the HTTP response is 200 in every case; a handler
failure is only logged.  The queued task is modelled as running to
completion here (its effects land in the returned state and actions). -/
def handleWebhookEvent (cfg : BridgeConfig) (st : BridgeState)
    (ev : WebhookEvent) (env : FeishuEnv) : BridgeState × List Action × Nat :=
  let finish := fun (r : BridgeState × List Action × Except String Unit) =>
    match r with
    | (st', acts, .ok _) => (st', acts, 200)
    | (st', acts, .error _) => (st', acts ++ [.log "handler failed"], 200)
  match ev with
  | .receive msg => finish (handleFeishuMessage cfg st msg env)
  | .recalled chatId messageId =>
    finish (handleFeishuMessageRecalled st chatId messageId env)
  | .memberAdded chatId userIds =>
    finish (handleFeishuChatMemberAdded st chatId userIds env)
  | .memberDeleted chatId userIds =>
    finish (handleFeishuChatMemberDeleted st chatId userIds env)
  | .chatUpdated chatId name mode ctype =>
    finish (handleFeishuChatUpdated st chatId name mode ctype env)
  | .disbanded chatId => finish (handleFeishuChatDisbanded st chatId env)
  | .unsupported _ => (st, [], 200)

/-- Strip every leading `sha256=` marker, as Rust
`trim_start_matches("sha256=")` does. -/
def stripSha256TagList : List Char → List Char
  | 's' :: 'h' :: 'a' :: '2' :: '5' :: '6' :: '=' :: rest => stripSha256TagList rest
  | l => l

def stripSha256Tag (s : String) : String :=
  String.mk (stripSha256TagList s.data)

/-- `FeishuClient::verify_webhook_signature`: an empty signing secret
accepts everything; otherwise the provided signature (trimmed, unmarked,
lowercased) must equal the hex SHA-256 of
timestamp, nonce, secret and raw body concatenated. -/
def verifyWebhookSignature (signingSecret timestamp nonce body providedSignature : String) :
    Bool :=
  if signingSecret = "" then true
  else
    let signature := asciiLower (stripSha256Tag (strTrim providedSignature))
    let payload := timestamp ++ nonce ++ signingSecret ++ body
    signature == hexEncode (Sha256.sha256 (strBytes payload))

/-- `FeishuClient::callback_signature_key`: a non-empty encrypt key wins,
then a non-empty listen secret, otherwise no key is configured. -/
def callbackSignatureKey (encryptKey : Option String) (fallbackSecret : String) :
    Option String :=
  match encryptKey with
  | some k =>
    if k ≠ "" then some k
    else if fallbackSecret ≠ "" then some fallbackSecret else none
  | none => if fallbackSecret ≠ "" then some fallbackSecret else none

/-- Result of the HTTP-level signature gate. -/
inductive SigCheck
  | accepted
  | unauthorized
deriving Repr, DecidableEq

/-- `FeishuService::verify_request_signature`: with no configured key every
request passes with no check at all; with a key, missing headers or a
mismatched signature yield 401. -/
def verifyRequestSignature (encryptKey : Option String) (listenSecret : String)
    (timestamp nonce signature : Option String) (body : String) : SigCheck :=
  match callbackSignatureKey encryptKey listenSecret with
  | none => .accepted
  | some key =>
    match timestamp, nonce, signature with
    | some t, some n, some s =>
      if verifyWebhookSignature key t n body s then .accepted else .unauthorized
    | _, _, _ => .unauthorized

/-! ## Claim C9 -/

/-- C9: webhook signature verification returns 401 only when a signing key
is configured.  When the encrypt key is absent or empty and the listen
secret is empty, `callback_signature_key` yields no key and
`verify_request_signature` accepts every request without any signature
check; and `verify_webhook_signature` itself returns true for arbitrary
inputs whenever the signing secret is the empty string. -/
theorem webhook_signature_open_when_unconfigured :
    (∀ t n s body, verifyRequestSignature none "" t n s body = .accepted) ∧
    (∀ t n s body, verifyRequestSignature (some "") "" t n s body = .accepted) ∧
    (∀ t n body sig, verifyWebhookSignature "" t n body sig = true) := by
  refine ⟨fun t n s body => ?_, fun t n s body => ?_, fun t n body sig => ?_⟩ <;>
    simp [verifyRequestSignature, callbackSignatureKey, verifyWebhookSignature]

/-! ## Claim C10 -/

/-- C10: `replay_dead_letter` on a row whose status is already `replayed`
returns success without invoking any handler (no dispatch action) and
leaves the state, hence the row, completely unchanged. -/
theorem replay_already_replayed_noop (st : BridgeState) (i : Nat)
    (env : ReplayEnv) (row : DeadLetterRow)
    (hrow : getDeadLetterById st i = some row)
    (hstatus : eqIgnoreAsciiCase row.status "replayed" = true) :
    replayDeadLetter st i env = (st, [], .ok ()) := by
  simp [replayDeadLetter, hrow, hstatus]

/-- Concrete demo row for the C10 witness: already replayed (with mixed
ASCII case, as the code compares case-insensitively). -/
def c10Row : DeadLetterRow :=
  { id := 7, source := "feishu", event_type := "im.message.receive_v1",
    dedupe_key := "om_z", chat_id := some "oc_1",
    payload := "x", error := "old", status := "Replayed",
    replay_count := 3, last_replayed_at := some "t1",
    created_at := "t0", updated_at := "t1" }

def c10State : BridgeState := { deadLetters := [c10Row], nextDeadLetterId := 8 }

def c10Env : ReplayEnv :=
  { replay := fun _ _ => .dispatched (.ok ()), now := "t2" }

/-- Witness for C10 at a concrete state. -/
theorem replay_already_replayed_noop_witness :
    replayDeadLetter c10State 7 c10Env = (c10State, [], .ok ()) :=
  replay_already_replayed_noop c10State 7 c10Env c10Row (by decide) (by decide)

/-! ## Claim C5 -/

/-- Demo room rows for the C5 counterexample. -/
def c5RowOld : RoomMapping :=
  { id := 1, matrix_room_id := "!a:hs", feishu_chat_id := "oc_1",
    feishu_chat_name := none, feishu_chat_type := "group",
    created_at := "t0", updated_at := "t0" }

def c5RowNew : RoomMapping :=
  { c5RowOld with feishu_chat_name := some "Renamed", updated_at := "t1" }

def c5State0 : BridgeState := { roomMappings := [c5RowOld], nextRoomId := 2 }

/-- State after one cached lookup followed by an update of the same row. -/
def c5StateAfterUpdate : BridgeState :=
  updateRoomMapping (getRoomByMatrixId c5State0 "!a:hs").2 c5RowNew

/-- C5 counterexample: the claim that a lookup performed after an update
never returns the stale pre-update value is false.  After a cached read and
an `update_room_mapping` of the same row, `get_room_by_matrix_id` still
returns the stale pre-update row, although the database row has changed. -/
theorem stale_cache_after_update_cex :
    (getRoomByMatrixId c5StateAfterUpdate "!a:hs").1 = some c5RowOld ∧
    c5StateAfterUpdate.roomMappings = [c5RowNew] ∧
    c5RowOld ≠ c5RowNew := by
  refine ⟨?_, ?_, ?_⟩ <;> decide

/-- C5 amended: the LRU caches in front of the room and user lookups are
populated by reads but never invalidated: every update and delete of a room
or user mapping leaves both caches untouched, so a cached entry survives
the write and a subsequent lookup in the same process can serve the stale
pre-update value until eviction. -/
theorem cache_not_invalidated_on_write :
    (∀ st m, (updateRoomMapping st m).roomCache = st.roomCache) ∧
    (∀ st i, (deleteRoomMapping st i).roomCache = st.roomCache) ∧
    (∀ st m, (updateUserMapping st m).userCache = st.userCache) ∧
    (∀ st i, (deleteUserMapping st i).userCache = st.userCache) ∧
    (∀ st m, (updateRoomMapping st m).userCache = st.userCache) ∧
    (∀ st m, (updateUserMapping st m).roomCache = st.roomCache) :=
  ⟨fun _ _ => rfl, fun _ _ => rfl, fun _ _ => rfl,
   fun _ _ => rfl, fun _ _ => rfl, fun _ _ => rfl⟩

/-! ## Claim C7 -/

/-- C7: when `get_message_by_feishu_id` already returns a mapping for the
incoming Feishu message id, `handle_feishu_message` stops immediately: the
state is unchanged, no Matrix call of any kind is made, and the handler
reports success — so redeliveries of one `message_id` produce at most one
primary Matrix event. -/
theorem feishu_duplicate_suppressed (cfg : BridgeConfig) (st : BridgeState)
    (msg : BridgeMessage) (env : FeishuEnv) (m : MessageMapping)
    (hdup : getMessageByFeishuId st msg.id = some m) :
    handleFeishuMessage cfg st msg env = (st, [], .ok ()) := by
  simp [handleFeishuMessage, hdup]

/-- Demo data for the C7 witness: a second delivery of `om_1` is dropped. -/
def c7Mapping : MessageMapping :=
  { id := 1, matrix_event_id := "$evt1", feishu_message_id := "om_1",
    thread_id := none, root_id := none, parent_id := none,
    room_id := "!a:hs", sender_mxid := "@feishubot:localhost",
    sender_feishu_id := "u_9", content_hash := none, created_at := "t0" }

def c7State : BridgeState := { messageMappings := [c7Mapping], nextMessageId := 2 }

def c7Msg : BridgeMessage :=
  { id := "om_1", sender := "u_9", room_id := "oc_1", content := "hello again",
    attachments := [] }

def c7Env : FeishuEnv :=
  { getChat := .ok { name := some "Chat" }, ensureRegistered := .ok (),
    sendTextResult := .ok "$evt2", attachmentResult := fun _ => none,
    getUser := fun _ => .error "unused", noticeResult := .ok (),
    redactResult := .ok (), now := "t1" }

/-- Witness for C7 at a concrete state. -/
theorem feishu_duplicate_suppressed_witness :
    handleFeishuMessage {} c7State c7Msg c7Env = (c7State, [], .ok ()) :=
  feishu_duplicate_suppressed {} c7State c7Msg c7Env c7Mapping (by decide)

/-! ## Claim C6 -/

/-- Demo data for the C6 counterexample. -/
def c6Mapping : RoomMapping :=
  { id := 1, matrix_room_id := "!a:hs", feishu_chat_id := "oc_1",
    feishu_chat_name := some "Chat", feishu_chat_type := "group",
    created_at := "t0", updated_at := "t0" }

def c6Outbound : OutboundFeishuMessage :=
  { content := "hi", msg_type := "text", reply_to := none, edit_of := none,
    attachments := [] }

def c6Env (u : String) : MatrixEnv :=
  { freshUuid := u, sendResult := .ok { message_id := "om_9" },
    updateResult := .ok (), recallResult := .ok (),
    attachmentResult := fun _ => none, now := "t1" }

/-- C6 counterexample: the claim that the delivery UUID passed to Feishu
send/reply is derived deterministically from `(event_id, content_hash)` is
false.  Two deliveries of the same outbound message — same event, same
content, hence the same content hash — pass different UUIDs, because
`send_outbound_message` draws a fresh random v4 UUID per call; the
deterministic `outbound_delivery_uuid` helper is never consulted. -/
theorem delivery_uuid_random_cex :
    (sendOutboundMessage {} idFormatter {} c6Mapping c6Outbound (c6Env "u1")).2.1 =
      [.feishuSend "chat_id" "oc_1" "text" (.text "hi") (some "u1")] ∧
    (sendOutboundMessage {} idFormatter {} c6Mapping c6Outbound (c6Env "u2")).2.1 =
      [.feishuSend "chat_id" "oc_1" "text" (.text "hi") (some "u2")] ∧
    ("u1" : String) ≠ "u2" := by
  refine ⟨?_, ?_, ?_⟩ <;> decide

/-- C6 amended: the UUID that `send_outbound_message` passes to the Feishu
send or reply call is the freshly generated random v4 value, for every
configuration, state and outbound message — it does not depend on the event
id or the content hash, so Feishu-side dedup does not hold across retries.
The deterministic derivation `outbound_delivery_uuid` exists in the code
base but is dead on this path. -/
theorem delivery_uuid_passed_is_fresh (cfg : BridgeConfig)
    (fmtr : FormatterOracle) (st : BridgeState) (mapping : RoomMapping)
    (outbound : OutboundFeishuMessage) (env : MatrixEnv) :
    ∀ a ∈ (sendOutboundMessage cfg fmtr st mapping outbound env).2.1,
      a.deliveryUuid = some env.freshUuid := by
  intro a ha
  unfold sendOutboundMessage at ha
  repeat' split at ha
  all_goals simp_all [Action.deliveryUuid]

/-- Witness for C6's amended theorem at a concrete send. -/
theorem delivery_uuid_passed_is_fresh_witness :
    (Action.feishuSend "chat_id" "oc_1" "text" (.text "hi")
        (some "u1")).deliveryUuid = some "u1" :=
  delivery_uuid_passed_is_fresh {} idFormatter {} c6Mapping c6Outbound
    (c6Env "u1") _ (by decide)

/-! ## Frame lemmas

The store operations touch disjoint components of the bridge state; these
lemmas record that no Feishu-side handler ever writes the processed-event
log or the dead-letter table. -/

/-- Components never written by the Feishu-side handlers. -/
def StoreFrame (st st' : BridgeState) : Prop :=
  st'.processedEvents = st.processedEvents ∧ st'.deadLetters = st.deadLetters

lemma StoreFrame.refl (st : BridgeState) : StoreFrame st st := ⟨rfl, rfl⟩

lemma StoreFrame.trans {a b c : BridgeState} (h1 : StoreFrame a b)
    (h2 : StoreFrame b c) : StoreFrame a c :=
  ⟨h2.1.trans h1.1, h2.2.trans h1.2⟩

lemma storeFrame_updateRoomMapping (st : BridgeState) (m : RoomMapping) :
    StoreFrame st (updateRoomMapping st m) := ⟨rfl, rfl⟩

lemma storeFrame_deleteRoomMapping (st : BridgeState) (i : Nat) :
    StoreFrame st (deleteRoomMapping st i) := ⟨rfl, rfl⟩

lemma storeFrame_deleteMessageMapping (st : BridgeState) (i : Nat) :
    StoreFrame st (deleteMessageMapping st i) := ⟨rfl, rfl⟩

lemma storeFrame_getRoomByFeishuId (st : BridgeState) (cid : String) :
    StoreFrame st (getRoomByFeishuId st cid).2 := by
  unfold getRoomByFeishuId
  dsimp only
  repeat' split
  all_goals exact ⟨rfl, rfl⟩

lemma storeFrame_getRoomByMatrixId (st : BridgeState) (rid : String) :
    StoreFrame st (getRoomByMatrixId st rid).2 := by
  unfold getRoomByMatrixId
  dsimp only
  repeat' split
  all_goals exact ⟨rfl, rfl⟩

lemma storeFrame_createMessageMapping (st : BridgeState) (m : MessageMapping) :
    StoreFrame st (createMessageMapping st m).1 := by
  unfold createMessageMapping
  split <;> exact ⟨rfl, rfl⟩

lemma storeFrame_getOrCreatePortal (cfg : BridgeConfig) (st : BridgeState)
    (rid : String) :
    StoreFrame st (getOrCreatePortalByFeishuRoom cfg st rid).2 := by
  unfold getOrCreatePortalByFeishuRoom
  repeat' split
  all_goals exact ⟨rfl, rfl⟩

lemma storeFrame_backfillChatName (st : BridgeState) (mapping : RoomMapping)
    (chatProfile : Option ChatData) (now : String) :
    StoreFrame st (backfillChatName st mapping chatProfile now).1 := by
  unfold backfillChatName
  repeat' split
  all_goals exact ⟨rfl, rfl⟩

lemma storeFrame_resolvePortal (cfg : BridgeConfig) (st1 : BridgeState)
    (roomOpt : Option RoomMapping) (chatProfile : Option ChatData)
    (feishuRoomId now : String) :
    StoreFrame st1 (resolvePortal cfg st1 roomOpt chatProfile feishuRoomId now).2 := by
  unfold resolvePortal
  cases roomOpt
  · exact storeFrame_getOrCreatePortal cfg st1 feishuRoomId
  · exact storeFrame_backfillChatName st1 _ chatProfile now

lemma storeFrame_deleteMessageMapping_foldl (l : List MessageMapping)
    (st : BridgeState) :
    StoreFrame st (l.foldl (fun acc m => deleteMessageMapping acc m.id) st) := by
  induction l generalizing st with
  | nil => exact StoreFrame.refl st
  | cons a l ih =>
    exact StoreFrame.trans (storeFrame_deleteMessageMapping st a.id)
      (ih (deleteMessageMapping st a.id))

/-- A positive `is_event_processed` answer exhibits a row. -/
lemma isEventProcessed_exists (st : BridgeState) (eid : String)
    (h : isEventProcessed st eid = true) :
    ∃ r ∈ st.processedEvents, r.event_id = eid := by
  simpa [isEventProcessed, List.any_eq_true] using h

/-- `handle_feishu_message` writes neither the processed-event log nor the
dead-letter table. -/
lemma storeFrame_handleFeishuMessage (cfg : BridgeConfig) (st : BridgeState)
    (msg : BridgeMessage) (env : FeishuEnv) :
    StoreFrame st (handleFeishuMessage cfg st msg env).1 := by
  unfold handleFeishuMessage
  cases h0 : getMessageByFeishuId st msg.id with
  | some m => exact StoreFrame.refl st
  | none =>
    dsimp only
    have hst2 : StoreFrame st
        (resolvePortal cfg (getRoomByFeishuId st msg.room_id).2
          (getRoomByFeishuId st msg.room_id).1
          (if (match (getRoomByFeishuId st msg.room_id).1 with
                | some m => m.feishu_chat_name.isNone
                | none => true) = true then env.getChat.toOption else none)
          msg.room_id env.now).2 :=
      StoreFrame.trans (storeFrame_getRoomByFeishuId st msg.room_id)
        (storeFrame_resolvePortal cfg _ _ _ msg.room_id env.now)
    cases env.ensureRegistered with
    | error m2 => exact hst2
    | ok _ =>
      dsimp only
      split
      · exact hst2
      · split
        · exact StoreFrame.trans hst2 (storeFrame_createMessageMapping _ _)
        · exact hst2

lemma storeFrame_handleFeishuMessageRecalled (st : BridgeState)
    (chatId messageId : String) (env : FeishuEnv) :
    StoreFrame st (handleFeishuMessageRecalled st chatId messageId env).1 := by
  unfold handleFeishuMessageRecalled
  repeat' split
  all_goals exact StoreFrame.refl st

lemma storeFrame_handleFeishuChatMemberAdded (st : BridgeState)
    (chatId : String) (userIds : List String) (env : FeishuEnv) :
    StoreFrame st (handleFeishuChatMemberAdded st chatId userIds env).1 := by
  unfold handleFeishuChatMemberAdded
  dsimp only
  repeat' split
  all_goals exact storeFrame_getRoomByFeishuId st chatId

lemma storeFrame_handleFeishuChatMemberDeleted (st : BridgeState)
    (chatId : String) (userIds : List String) (env : FeishuEnv) :
    StoreFrame st (handleFeishuChatMemberDeleted st chatId userIds env).1 := by
  unfold handleFeishuChatMemberDeleted
  dsimp only
  repeat' split
  all_goals exact storeFrame_getRoomByFeishuId st chatId

lemma storeFrame_handleFeishuChatUpdated (st : BridgeState) (chatId : String)
    (chatName chatMode chatType : Option String) (env : FeishuEnv) :
    StoreFrame st (handleFeishuChatUpdated st chatId chatName chatMode chatType env).1 := by
  unfold handleFeishuChatUpdated
  dsimp only
  repeat' split
  all_goals exact
    StoreFrame.trans (storeFrame_getRoomByFeishuId st chatId) ⟨rfl, rfl⟩

lemma storeFrame_handleFeishuChatDisbanded (st : BridgeState) (chatId : String)
    (env : FeishuEnv) :
    StoreFrame st (handleFeishuChatDisbanded st chatId env).1 := by
  unfold handleFeishuChatDisbanded
  dsimp only
  repeat' split
  all_goals first
    | exact StoreFrame.trans (storeFrame_getRoomByFeishuId st chatId) ⟨rfl, rfl⟩
    | exact StoreFrame.trans (storeFrame_getRoomByFeishuId st chatId)
        (StoreFrame.trans (storeFrame_deleteMessageMapping_foldl _ _) ⟨rfl, rfl⟩)

/-! ## Claim C2 -/

/-- Demo data for the C2 counterexample: a fresh Feishu message into a
bridged room. -/
def c2Room : RoomMapping :=
  { id := 1, matrix_room_id := "!a:hs", feishu_chat_id := "oc_1",
    feishu_chat_name := some "Chat", feishu_chat_type := "group",
    created_at := "t0", updated_at := "t0" }

def c2State : BridgeState := { roomMappings := [c2Room], nextRoomId := 2 }

def c2Msg : BridgeMessage :=
  { id := "om_1", sender := "u_9", room_id := "oc_1", content := "hi",
    attachments := [] }

def c2Env : FeishuEnv :=
  { getChat := .error "unused", ensureRegistered := .ok (),
    sendTextResult := .ok "$evt1", attachmentResult := fun _ => none,
    getUser := fun _ => .error "unused", noticeResult := .ok (),
    redactResult := .ok (), now := "t1" }

/-- C2 counterexample: the claim that every delivery that persists a
`MessageMapping` also records the event in the `ProcessedEvent` log is
false on the Feishu side.  A successful `handle_feishu_message` run
persists the mapping for `om_1` yet leaves the processed-event log empty —
in particular neither `feishu:om_1` nor any other id is recorded. -/
theorem message_mapping_without_processed_event_cex :
    (getMessageByFeishuId (handleFeishuMessage {} c2State c2Msg c2Env).1
      "om_1").isSome = true ∧
    ((handleFeishuMessage {} c2State c2Msg c2Env).1).processedEvents = [] ∧
    isEventProcessed (handleFeishuMessage {} c2State c2Msg c2Env).1
      "feishu:om_1" = false ∧
    (handleFeishuMessage {} c2State c2Msg c2Env).2.2 = .ok () :=
  ⟨by decide, by decide, by decide, rfl⟩

/-- C2 amended: `handle_feishu_message` never writes the processed-event
log at all (so a Feishu-side `MessageMapping` has no `ProcessedEvent`
counterpart), while on the Matrix side every `process_event` run that
completes successfully records the event — under its raw event id, not
under a `matrix:`-prefixed source id. -/
theorem processed_event_recording :
    (∀ cfg st msg env,
      ((handleFeishuMessage cfg st msg env).1).processedEvents =
        st.processedEvents) ∧
    (∀ cfg fmtr st e env eid, e.event_id = some eid →
      (processMatrixEvent cfg fmtr st e env).2.2 = .ok () →
      ∃ r ∈ ((processMatrixEvent cfg fmtr st e env).1).processedEvents,
        r.event_id = eid) := by
  constructor
  · intro cfg st msg env
    exact (storeFrame_handleFeishuMessage cfg st msg env).1
  · intro cfg fmtr st e env eid heid hok
    unfold processMatrixEvent at hok ⊢
    rw [heid] at hok ⊢
    dsimp only at hok ⊢
    by_cases hhit : isEventProcessed st eid = true
    · simp only [hhit, if_true] at hok ⊢
      exact isEventProcessed_exists st eid hhit
    · simp only [eq_false_of_ne_true hhit, Bool.false_eq_true, if_false] at hok ⊢
      rcases hd : dispatchMatrixEvent cfg fmtr st e env with ⟨st1, acts, res⟩
      rw [hd] at hok
      cases res with
      | error msg => simp at hok
      | ok _ =>
        dsimp only at hok ⊢
        rcases hm : markEventProcessed st1
            { event_id := eid, event_type := e.event_type, source := "matrix",
              processed_at := env.now } with merr | st2
        · rw [hm] at hok
          simp at hok
        · dsimp only
          unfold markEventProcessed at hm
          split at hm
          · exact absurd hm (by simp)
          · simp only [Except.ok.injEq] at hm
            subst hm
            exact ⟨{ event_id := eid, event_type := e.event_type,
                     source := "matrix", processed_at := env.now },
                   by simp, rfl⟩

/-! ## Claim C4 -/

/-- Demo data for the C4 counterexample: a Feishu message whose Matrix text
send fails terminally. -/
def c4Room : RoomMapping :=
  { id := 1, matrix_room_id := "!a:hs", feishu_chat_id := "oc_1",
    feishu_chat_name := some "Chat", feishu_chat_type := "group",
    created_at := "t0", updated_at := "t0" }

def c4State : BridgeState := { roomMappings := [c4Room], nextRoomId := 2 }

def c4Msg : BridgeMessage :=
  { id := "om_x", sender := "u_1", room_id := "oc_1", content := "hi",
    attachments := [] }

def c4Env : FeishuEnv :=
  { getChat := .error "unused", ensureRegistered := .ok (),
    sendTextResult := .error "boom", attachmentResult := fun _ => none,
    getUser := fun _ => .error "unused", noticeResult := .ok (),
    redactResult := .ok (), now := "t1" }

/-- C4 counterexample: the claim that a terminally failing webhook handler
with a derivable dedupe key (here the Feishu message id `om_x`) gets a dead
letter recorded is false.  The receive handler fails terminally with the
send error, yet the webhook front end responds 200, only logs the failure,
and the dead-letter table stays empty. -/
theorem webhook_no_dead_letter_cex :
    (handleFeishuMessage {} c4State c4Msg c4Env).2.2 = .error "boom" ∧
    (handleWebhookEvent {} c4State (.receive c4Msg) c4Env).2.2 = 200 ∧
    ((handleWebhookEvent {} c4State (.receive c4Msg) c4Env).1).deadLetters = [] ∧
    (handleWebhookEvent {} c4State (.receive c4Msg) c4Env).2.1 =
      [.matrixSendText "!a:hs" "hi" none, .log "handler failed"] :=
  ⟨rfl, rfl, by decide, by decide⟩

/-- C4 amended: the webhook front end dead-letters nothing.  For every
parsed webhook event — whether its handler succeeds or fails — the
dead-letter table is left exactly as it was and the HTTP response is 200;
failures are only logged.  (`record_dead_letter` exists on `FeishuBridge`
but no code path invokes it.) -/
theorem webhook_never_dead_letters (cfg : BridgeConfig) (st : BridgeState)
    (ev : WebhookEvent) (env : FeishuEnv) :
    ((handleWebhookEvent cfg st ev env).1).deadLetters = st.deadLetters ∧
    (handleWebhookEvent cfg st ev env).2.2 = 200 := by
  cases ev with
  | receive msg =>
    have hf := (storeFrame_handleFeishuMessage cfg st msg env).2
    unfold handleWebhookEvent
    dsimp only
    rcases h : handleFeishuMessage cfg st msg env with ⟨st', acts, res⟩
    rw [h] at hf
    cases res <;> exact ⟨hf, rfl⟩
  | recalled chatId messageId =>
    have hf := (storeFrame_handleFeishuMessageRecalled st chatId messageId env).2
    unfold handleWebhookEvent
    dsimp only
    rcases h : handleFeishuMessageRecalled st chatId messageId env with ⟨st', acts, res⟩
    rw [h] at hf
    cases res <;> exact ⟨hf, rfl⟩
  | memberAdded chatId userIds =>
    have hf := (storeFrame_handleFeishuChatMemberAdded st chatId userIds env).2
    unfold handleWebhookEvent
    dsimp only
    rcases h : handleFeishuChatMemberAdded st chatId userIds env with ⟨st', acts, res⟩
    rw [h] at hf
    cases res <;> exact ⟨hf, rfl⟩
  | memberDeleted chatId userIds =>
    have hf := (storeFrame_handleFeishuChatMemberDeleted st chatId userIds env).2
    unfold handleWebhookEvent
    dsimp only
    rcases h : handleFeishuChatMemberDeleted st chatId userIds env with ⟨st', acts, res⟩
    rw [h] at hf
    cases res <;> exact ⟨hf, rfl⟩
  | chatUpdated chatId name mode ctype =>
    have hf := (storeFrame_handleFeishuChatUpdated st chatId name mode ctype env).2
    unfold handleWebhookEvent
    dsimp only
    rcases h : handleFeishuChatUpdated st chatId name mode ctype env with ⟨st', acts, res⟩
    rw [h] at hf
    cases res <;> exact ⟨hf, rfl⟩
  | disbanded chatId =>
    have hf := (storeFrame_handleFeishuChatDisbanded st chatId env).2
    unfold handleWebhookEvent
    dsimp only
    rcases h : handleFeishuChatDisbanded st chatId env with ⟨st', acts, res⟩
    rw [h] at hf
    cases res <;> exact ⟨hf, rfl⟩
  | unsupported t => exact ⟨rfl, rfl⟩

/-- Witness for C2's amended theorem: a successful Matrix run records the
raw event id. -/
theorem processed_event_recording_witness :
    ((handleFeishuMessage {} c2State c2Msg c2Env).1).processedEvents =
        c2State.processedEvents ∧
    ∃ r ∈ ((processMatrixEvent {} idFormatter {}
        { event_id := some "$m1", event_type := "m.reaction",
          room_id := "!a:hs", sender := "@u:hs", content := none }
        { freshUuid := "u0", sendResult := .ok { message_id := "om_2" },
          updateResult := .ok (), recallResult := .ok (),
          attachmentResult := fun _ => none, now := "t2" }).1).processedEvents,
      r.event_id = "$m1" := by
  constructor
  · exact processed_event_recording.1 {} c2State c2Msg c2Env
  · exact processed_event_recording.2 {} idFormatter {} _ _ "$m1" rfl rfl

/-! ## Claim C1 -/

/-- Configuration for the C1 counterexample: plain-text bridging. -/
def c1Cfg : BridgeConfig := { enable_rich_text := false, allow_markdown := false }

def c1Event : MatrixEvent :=
  { event_id := some "$e1", event_type := "m.room.message",
    room_id := "!a:hs", sender := "@alice:hs",
    content := some { core := { body := some "hello", msgtype := some "m.text" } } }

/-- The outbound translation of `c1Event`, as the dispatcher would build. -/
def c1Outbound : OutboundFeishuMessage :=
  matrixToFeishu c1Cfg idFormatter
    { event_id := some "$e1", room_id := "!a:hs", sender := "@alice:hs",
      body := "hello", relation := none, attachments := [] }

/-- The content hash of `c1Event` per `outbound_content_hash`. -/
def c1Hash : String := outboundContentHash c1Event c1Outbound

def c1Room : RoomMapping :=
  { id := 1, matrix_room_id := "!a:hs", feishu_chat_id := "oc_1",
    feishu_chat_name := some "Chat", feishu_chat_type := "group",
    created_at := "t0", updated_at := "t0" }

/-- A previously persisted mapping that carries exactly the hash of
`c1Event`. -/
def c1ExistingMapping : MessageMapping :=
  { id := 1, matrix_event_id := "$old", feishu_message_id := "om_old",
    thread_id := none, root_id := none, parent_id := none,
    room_id := "!a:hs", sender_mxid := "@alice:hs", sender_feishu_id := "matrix",
    content_hash := some c1Hash, created_at := "t0" }

def c1State : BridgeState :=
  { roomMappings := [c1Room], nextRoomId := 2,
    messageMappings := [c1ExistingMapping], nextMessageId := 2 }

def c1Env : MatrixEnv :=
  { freshUuid := "u0", sendResult := .ok { message_id := "om_new" },
    updateResult := .ok (), recallResult := .ok (),
    attachmentResult := fun _ => none, now := "t1" }

/-- C1 counterexample: the claim that the dispatcher stops without sending
when a `MessageMapping` with the event's content hash exists is false.
`get_message_by_content_hash` would find such a mapping in the store, yet
`handle_message_event` — which never computes or looks up the hash — sends
to Feishu anyway and reports success. -/
theorem content_hash_check_absent_cex :
    (getMessageByContentHash c1State c1Hash).isSome = true ∧
    (handleMessageEvent c1Cfg idFormatter c1State c1Event c1Env).2.1 =
      [.feishuSend "chat_id" "oc_1" "text" (.text "hello") (some "u0")] ∧
    (handleMessageEvent c1Cfg idFormatter c1State c1Event c1Env).2.2 = .ok () := by
  refine ⟨?_, by decide, rfl⟩
  simp [getMessageByContentHash, c1State, c1ExistingMapping]

/-- C1 amended: `outbound_content_hash` itself is deterministic over
exactly the claimed tuple — event id, room id, sender, outbound msg type
and content, optional reply and edit targets, and the ordered attachment
(kind, url) pairs — but the Matrix-to-Feishu dispatch path neither computes
it nor suppresses on an existing hash-matching mapping (see the
counterexample); the mapping it persists carries no content hash. -/
theorem outbound_content_hash_deterministic
    (e1 e2 : MatrixEvent) (o1 o2 : OutboundFeishuMessage)
    (hev : e1.event_id = e2.event_id) (hroom : e1.room_id = e2.room_id)
    (hsender : e1.sender = e2.sender) (hmt : o1.msg_type = o2.msg_type)
    (hc : o1.content = o2.content) (hr : o1.reply_to = o2.reply_to)
    (he : o1.edit_of = o2.edit_of)
    (hatt : o1.attachments.map (fun a => (a.kind, a.url)) =
            o2.attachments.map (fun a => (a.kind, a.url))) :
    outboundContentHash e1 o1 = outboundContentHash e2 o2 := by
  have key : ∀ l : List MessageAttachment,
      l.map (fun a => [a.kind, a.url]) =
        (l.map (fun a => (a.kind, a.url))).map (fun p => [p.1, p.2]) := by
    intro l
    rw [List.map_map]
    rfl
  unfold outboundContentHash
  rw [hev, hroom, hsender, hmt, hc, hr, he, key o1.attachments,
      key o2.attachments, hatt]

/-- Witness for C1's amended theorem: two events that differ in fields
outside the hashed tuple (the state key) still hash equal. -/
theorem outbound_content_hash_deterministic_witness :
    outboundContentHash c1Event c1Outbound =
      outboundContentHash { c1Event with state_key := some "ignored" } c1Outbound :=
  outbound_content_hash_deterministic _ _ _ _ rfl rfl rfl rfl rfl rfl rfl rfl

/-! ## Claim C3 -/

/-- Configuration for the C3 counterexample: `m.notice` blocked and a
one-character text limit. -/
def c3Cfg : BridgeConfig :=
  { enable_rich_text := false, allow_markdown := false,
    blocked_matrix_msgtypes := ["m.notice"], max_text_length := 1 }

def c3Event : MatrixEvent :=
  { event_id := some "$e3", event_type := "m.room.message",
    room_id := "!a:hs", sender := "@alice:hs",
    content := some { core := { body := some "xy", msgtype := some "m.notice" } } }

def c3Room : RoomMapping :=
  { id := 1, matrix_room_id := "!a:hs", feishu_chat_id := "oc_1",
    feishu_chat_name := some "Chat", feishu_chat_type := "group",
    created_at := "t0", updated_at := "t0" }

def c3State : BridgeState := { roomMappings := [c3Room], nextRoomId := 2 }

def c3Env : MatrixEnv :=
  { freshUuid := "u3", sendResult := .ok { message_id := "om_3" },
    updateResult := .ok (), recallResult := .ok (),
    attachmentResult := fun _ => none, now := "t1" }

/-- C3 counterexample: the claim that events with a blocked msgtype are
dropped (no Feishu send) and that over-length text is truncated is false.
With `m.notice` blocked and `max_text_length = 1`, the two-character
`m.notice` message is still sent to Feishu, untruncated; the event is
indeed marked processed afterwards. -/
theorem policy_gate_absent_cex :
    "m.notice" ∈ c3Cfg.blocked_matrix_msgtypes ∧
    c3Cfg.max_text_length < ("xy" : String).length ∧
    (handleMessageEvent c3Cfg idFormatter c3State c3Event c3Env).2.1 =
      [.feishuSend "chat_id" "oc_1" "text" (.text "xy") (some "u3")] ∧
    isEventProcessed
      (processMatrixEvent c3Cfg idFormatter c3State c3Event c3Env).1 "$e3" = true := by
  refine ⟨by decide, by decide, by decide, by decide⟩

/-- C3 amended: the configured outbound policy fields are dead: changing
`blocked_matrix_msgtypes` or `max_text_length` to anything at all changes
neither `handle_message_event` nor `process_event` — no drop, no
truncation, no degraded-event marking ever happens on their account, and
every event is marked processed regardless of msgtype. -/
theorem policy_fields_not_enforced (cfg : BridgeConfig) (bl : List String)
    (n : Nat) (fmtr : FormatterOracle) (st : BridgeState) (e : MatrixEvent)
    (env : MatrixEnv) :
    handleMessageEvent
        { cfg with blocked_matrix_msgtypes := bl, max_text_length := n }
        fmtr st e env =
      handleMessageEvent cfg fmtr st e env ∧
    processMatrixEvent
        { cfg with blocked_matrix_msgtypes := bl, max_text_length := n }
        fmtr st e env =
      processMatrixEvent cfg fmtr st e env :=
  ⟨rfl, rfl⟩

/-! ## Claim C8 -/

/-- Well-formedness of the dead-letter table as SQLite maintains it: ids
are pairwise distinct (primary key) and below the AUTOINCREMENT cursor. -/
structure DeadLetterWF (st : BridgeState) : Prop where
  idsUnique : st.deadLetters.Pairwise (fun a b => a.id ≠ b.id)
  idsBelow : ∀ r ∈ st.deadLetters, r.id < st.nextDeadLetterId

/-- `find?` on a cons whose head satisfies the predicate. -/
lemma dlFind?_cons_pos (p : DeadLetterRow → Bool) (a : DeadLetterRow)
    (l : List DeadLetterRow) (h : p a = true) :
    (a :: l).find? p = some a := by
  simp [List.find?, h]

/-- `find?` on a cons whose head fails the predicate. -/
lemma dlFind?_cons_neg (p : DeadLetterRow → Bool) (a : DeadLetterRow)
    (l : List DeadLetterRow) (h : ¬ p a = true) :
    (a :: l).find? p = l.find? p := by
  cases hpa : p a
  · simp [List.find?, hpa]
  · exact absurd hpa h

/-- An UPDATE keyed on a found row's id is visible to a subsequent
lookup by the same id, provided the update preserves the id. -/
lemma find?_id_map_update (l : List DeadLetterRow) (i : Nat)
    (f : DeadLetterRow → DeadLetterRow) (r : DeadLetterRow)
    (hfr : (f r).id = r.id)
    (hfind : l.find? (fun x => x.id == i) = some r) :
    (l.map (fun x => if x.id == i then f x else x)).find?
      (fun x => x.id == i) = some (f r) := by
  induction l with
  | nil => simp at hfind
  | cons a t ih =>
    by_cases ha : (a.id == i) = true
    · rw [dlFind?_cons_pos (fun x => x.id == i) a t ha] at hfind
      injection hfind with h
      subst h
      have hfi : ((f a).id == i) = true := by
        rw [hfr]
        exact ha
      simp only [List.map_cons, ha, if_true]
      exact dlFind?_cons_pos (fun x => x.id == i) _ _ hfi
    · rw [dlFind?_cons_neg (fun x => x.id == i) a t ha] at hfind
      have hhead : (if (a.id == i) = true then f a else a) = a := if_neg ha
      simp only [List.map_cons]
      rw [hhead, dlFind?_cons_neg (fun x => x.id == i) a _ ha]
      exact ih hfind

/-- The UPDATE of the conflicting row in the dead-letter upsert is visible
to the re-read by dedupe key, given distinct ids. -/
lemma find?_key_map_update (l : List DeadLetterRow) (k : String)
    (upd old : DeadLetterRow) (hupd : (upd.dedupe_key == k) = true)
    (hids : l.Pairwise (fun a b => a.id ≠ b.id))
    (hfind : l.find? (fun x => x.dedupe_key == k) = some old) :
    (l.map (fun x => if x.id == old.id then upd else x)).find?
      (fun x => x.dedupe_key == k) = some upd := by
  induction l with
  | nil => simp at hfind
  | cons a t ih =>
    by_cases ha : (a.dedupe_key == k) = true
    · rw [dlFind?_cons_pos (fun x => x.dedupe_key == k) a t ha] at hfind
      injection hfind with h
      subst h
      simp only [List.map_cons, beq_self_eq_true, if_true]
      exact dlFind?_cons_pos (fun x => x.dedupe_key == k) _ _ hupd
    · rw [dlFind?_cons_neg (fun x => x.dedupe_key == k) a t ha] at hfind
      have hmem : old ∈ t := List.mem_of_find?_eq_some hfind
      have hne : a.id ≠ old.id := (List.pairwise_cons.mp hids).1 old hmem
      have hne' : ¬ (a.id == old.id) = true := by
        simpa using hne
      have hhead : (if (a.id == old.id) = true then upd else a) = a := if_neg hne'
      simp only [List.map_cons]
      rw [hhead, dlFind?_cons_neg (fun x => x.dedupe_key == k) a _ ha]
      exact ih (List.Pairwise.of_cons hids) hfind

/-- With pairwise-distinct ids, a member is found by its own id. -/
lemma find?_id_of_mem (l : List DeadLetterRow) (r : DeadLetterRow)
    (hids : l.Pairwise (fun a b => a.id ≠ b.id)) (hmem : r ∈ l) :
    l.find? (fun x => x.id == r.id) = some r := by
  induction l with
  | nil => simp at hmem
  | cons a t ih =>
    rcases List.mem_cons.mp hmem with h | h
    · subst h
      exact dlFind?_cons_pos (fun x => x.id == r.id) r t (by simp)
    · have hne : a.id ≠ r.id := (List.pairwise_cons.mp hids).1 r h
      rw [dlFind?_cons_neg (fun x => x.id == r.id) a t (by simpa using hne)]
      exact ih (List.Pairwise.of_cons hids) h

/-- An INSERT is visible to a subsequent lookup by its fresh id. -/
lemma find?_id_append_fresh (l : List DeadLetterRow) (fresh : DeadLetterRow)
    (hbig : ∀ r ∈ l, r.id < fresh.id) :
    (l ++ [fresh]).find? (fun x => x.id == fresh.id) = some fresh := by
  induction l with
  | nil => exact dlFind?_cons_pos (fun x => x.id == fresh.id) fresh [] (by simp)
  | cons a t ih =>
    have hne : a.id ≠ fresh.id := Nat.ne_of_lt (hbig a (by simp))
    rw [List.cons_append,
      dlFind?_cons_neg (fun x => x.id == fresh.id) a _ (by simpa using hne)]
    exact ih (fun r hr => hbig r (by simp [hr]))

/-- An INSERT is visible to the upsert's re-read by dedupe key when no
existing row carries the key. -/
lemma find?_key_append_fresh (l : List DeadLetterRow) (k : String)
    (fresh : DeadLetterRow) (hk : (fresh.dedupe_key == k) = true)
    (hnone : l.find? (fun x => x.dedupe_key == k) = none) :
    (l ++ [fresh]).find? (fun x => x.dedupe_key == k) = some fresh := by
  induction l with
  | nil => exact dlFind?_cons_pos (fun x => x.dedupe_key == k) fresh [] hk
  | cons a t ih =>
    by_cases ha : (a.dedupe_key == k) = true
    · rw [dlFind?_cons_pos (fun x => x.dedupe_key == k) a t ha] at hnone
      exact absurd hnone (by simp)
    · rw [dlFind?_cons_neg (fun x => x.dedupe_key == k) a t ha] at hnone
      rw [List.cons_append,
        dlFind?_cons_neg (fun x => x.dedupe_key == k) a _ ha]
      exact ih hnone

/-- The replacement map of the upsert keeps every row's id, so the row ids
and their distinctness are unchanged. -/
lemma pairwise_ids_map_update (l : List DeadLetterRow) (i : Nat)
    (upd : DeadLetterRow) (hid : upd.id = i)
    (hids : l.Pairwise (fun a b => a.id ≠ b.id)) :
    (l.map (fun x => if x.id == i then upd else x)).Pairwise
      (fun a b => a.id ≠ b.id) := by
  have hpt : ∀ x : DeadLetterRow,
      ((fun x => if x.id == i then upd else x) x).id = x.id := by
    intro x
    by_cases hx : (x.id == i) = true
    · have hx' : x.id = i := by simpa using hx
      simp [hx, hid, hx']
    · simp [hx]
  refine List.Pairwise.map _ ?_ hids
  intro a b hab
  rw [hpt a, hpt b]
  exact hab

/-- `recordDeadLetter` on a well-formed table returns a `pending` row that
a lookup by its id finds exactly. -/
lemma recordDeadLetter_fetch (st : BridgeState) (hWF : DeadLetterWF st)
    (et dkey payload errMsg now : String) (chat : Option String)
    (st1 : BridgeState) (saved : DeadLetterRow)
    (hrec : recordDeadLetter st et dkey chat payload errMsg now =
      .ok (st1, saved)) :
    getDeadLetterById st1 saved.id = some saved ∧ saved.status = "pending" := by
  unfold recordDeadLetter createDeadLetter at hrec
  dsimp only at hrec
  split at hrec
  case h_1 old hk =>
    split at hrec
    case h_1 saved0 hq =>
      simp only [Except.ok.injEq, Prod.mk.injEq] at hrec
      obtain ⟨hst1, hsaved⟩ := hrec
      subst hst1
      subst hsaved
      have hko : (old.dedupe_key == dkey) = true := by
        have h := List.find?_some hk
        simpa using h
      have hupd := find?_key_map_update st.deadLetters dkey
        { old with
          error := errMsg, payload := payload, status := "pending",
          updated_at := now } old hko hWF.idsUnique hk
      rw [hupd] at hq
      injection hq with hq
      subst hq
      refine ⟨?_, rfl⟩
      unfold getDeadLetterById
      dsimp only
      have hmemOld : old ∈ st.deadLetters := List.mem_of_find?_eq_some hk
      have hmemUpd :
          ({ old with
             error := errMsg, payload := payload, status := "pending",
             updated_at := now } : DeadLetterRow) ∈
            st.deadLetters.map
              (fun x => if x.id == old.id then
                { old with
                  error := errMsg, payload := payload, status := "pending",
                  updated_at := now } else x) := by
        refine List.mem_map.mpr ⟨old, hmemOld, ?_⟩
        simp
      have hpw := pairwise_ids_map_update st.deadLetters old.id
        { old with
          error := errMsg, payload := payload, status := "pending",
          updated_at := now } rfl hWF.idsUnique
      exact find?_id_of_mem _ _ hpw hmemUpd
    case h_2 hq => exact absurd hrec (by simp)
  case h_2 hk =>
    split at hrec
    case h_1 saved0 hq =>
      simp only [Except.ok.injEq, Prod.mk.injEq] at hrec
      obtain ⟨hst1, hsaved⟩ := hrec
      subst hst1
      subst hsaved
      rw [find?_key_append_fresh st.deadLetters dkey _ (by simp) hk] at hq
      injection hq with hq
      subst hq
      refine ⟨?_, rfl⟩
      unfold getDeadLetterById
      dsimp only
      exact find?_id_append_fresh st.deadLetters
        { id := st.nextDeadLetterId, source := "feishu", event_type := et,
          dedupe_key := dkey, chat_id := chat, payload := payload,
          error := errMsg, status := "pending", replay_count := 0,
          last_replayed_at := none, created_at := now, updated_at := now }
        (fun r hr => hWF.idsBelow r hr)
    case h_2 hq => exact absurd hrec (by simp)

/-- C8: after a successful `record_dead_letter` (which stores the row with
status `pending`), a successful `replay_dead_letter` of that row leaves it
with status `replayed`, `replay_count ≥ 1` and a replay timestamp; if the
replayed dispatch fails, the row's status becomes `failed` with the
dispatch error stored. -/
theorem dead_letter_replay_lifecycle (st : BridgeState) (hWF : DeadLetterWF st)
    (et dkey payload errMsg now : String) (chat : Option String)
    (st1 : BridgeState) (saved : DeadLetterRow) (env : ReplayEnv)
    (hrec : recordDeadLetter st et dkey chat payload errMsg now =
      .ok (st1, saved)) :
    (env.replay saved.event_type saved.payload = .dispatched (.ok ()) →
      ∃ r, getDeadLetterById (replayDeadLetter st1 saved.id env).1 saved.id =
          some r ∧
        r.status = "replayed" ∧ 1 ≤ r.replay_count ∧
        r.last_replayed_at = some env.now) ∧
    (∀ m, env.replay saved.event_type saved.payload = .dispatched (.error m) →
      ∃ r, getDeadLetterById (replayDeadLetter st1 saved.id env).1 saved.id =
          some r ∧
        r.status = "failed" ∧ r.error = m) := by
  obtain ⟨hfetch, hstatus⟩ := recordDeadLetter_fetch st hWF et dkey payload
    errMsg now chat st1 saved hrec
  have hnotReplayed : eqIgnoreAsciiCase saved.status "replayed" = false := by
    rw [hstatus]
    decide
  constructor
  · intro hdispatch
    unfold replayDeadLetter
    rw [hfetch]
    split
    case h_1 heq => exact absurd heq (by simp)
    case h_2 ev heq =>
      injection heq with heq
      subst heq
      split
      case isTrue h =>
        rw [hnotReplayed] at h
        exact Bool.noConfusion h
      case isFalse h =>
        rw [hdispatch]
        split
        case h_1 msg heq2 => exact absurd heq2.symm (by simp)
        case h_2 u heq2 =>
          dsimp only
          refine ⟨{ saved with
                    status := "replayed",
                    replay_count := saved.replay_count + 1,
                    last_replayed_at := some env.now, updated_at := env.now },
                  ?_, rfl, Nat.succ_le_succ (Nat.zero_le _), rfl⟩
          unfold getDeadLetterById markDeadLetterReplayed
          dsimp only
          exact find?_id_map_update st1.deadLetters saved.id _ saved rfl hfetch
        case h_3 msg heq2 => exact absurd heq2.symm (by simp)
  · intro m hdispatch
    unfold replayDeadLetter
    rw [hfetch]
    split
    case h_1 heq => exact absurd heq (by simp)
    case h_2 ev heq =>
      injection heq with heq
      subst heq
      split
      case isTrue h =>
        rw [hnotReplayed] at h
        exact Bool.noConfusion h
      case isFalse h =>
        rw [hdispatch]
        split
        case h_1 msg heq2 => exact absurd heq2.symm (by simp)
        case h_2 u heq2 => exact absurd heq2.symm (by simp)
        case h_3 msg heq2 =>
          dsimp only
          have hm : msg = m := by
            have h3 := heq2.symm
            simp only [ReplayOutcome.dispatched.injEq, Except.error.injEq] at h3
            exact h3
          subst hm
          refine ⟨{ saved with
                    status := "failed", error := msg, updated_at := env.now },
                  ?_, rfl, rfl⟩
          unfold getDeadLetterById markDeadLetterFailed
          dsimp only
          exact find?_id_map_update st1.deadLetters saved.id _ saved rfl hfetch

/-- The concrete row recorded in the C8 witness. -/
def c8Fresh : DeadLetterRow :=
  { id := 1, source := "feishu", event_type := "im.message.receive_v1",
    dedupe_key := "om_z", chat_id := some "oc_1", payload := "p",
    error := "transient", status := "pending", replay_count := 0,
    last_replayed_at := none, created_at := "t0", updated_at := "t0" }

def c8St1 : BridgeState := { deadLetters := [c8Fresh], nextDeadLetterId := 2 }

def c8Env : ReplayEnv :=
  { replay := fun _ _ => .dispatched (.ok ()), now := "t1" }

/-- Witness for C8 on an initially empty store. -/
theorem dead_letter_replay_lifecycle_witness :
    ∃ r, getDeadLetterById (replayDeadLetter c8St1 c8Fresh.id c8Env).1
        c8Fresh.id = some r ∧
      r.status = "replayed" ∧ 1 ≤ r.replay_count ∧
      r.last_replayed_at = some "t1" :=
  (dead_letter_replay_lifecycle {} ⟨List.Pairwise.nil, by simp⟩
    "im.message.receive_v1" "om_z" "p" "transient" "t0" (some "oc_1")
    c8St1 c8Fresh c8Env rfl).1 rfl

end MatrixBridgeFeishu
